import Mathlib

/-!
# Plastic-Free-Club discounts: verification of the checkout-time evaluators

Shallow embedding of the discount-computation core of the repository:

* `extensions/pfc-member-order-discount/src/run.ts` — two generations of the
  order-discount evaluator (`runOrderV1`: per-line fixed-amount records;
  `runOrderV2`: single combined record), plus the earliest per-line
  percentage-value generation found in the repository (`runOrderV0`).
* `extensions/pfc-shipping-discount/src/run.ts` (`runShippingV1`) and the
  configurable-message generation of the same evaluator (`runShippingV2`).
* `extensions/cart-transform-function/src/index.ts` (`runCartTransform`).
* `app/lib/discount-logic.server.ts` (`calculateMemberPrice`).

JavaScript numbers are modelled as exact decimal fractions (`Dec`, an
integer mantissa over a power-of-ten denominator) extended with `NaN`
(`JNum`).  Every number the embedded code manipulates is produced from a
decimal literal by `Number`/`parseFloat` or by the ring operations and
division by the literal 100, so this carrier is closed under all the
operations that occur; binary floating-point rounding noise is not
modelled.  The NaN propagation of arithmetic, `Math.min`/`Math.max`, the
comparison operators and truthiness is modelled exactly.  `Dec.val` maps a
value to the rational it denotes; specification statements are phrased
through `Dec.val`.

`Number(...)` and `parseFloat(...)` are modelled for plain decimal literals
(optional sign, digits, decimal point) — every string the code and its own
tests feed them; hexadecimal and exponent literals are outside the model.
`JSON.parse` of a malformed string throws in JavaScript; evaluators that
parse their configuration metafield are therefore embedded in
`Except JsError`.
-/

/-- Exact decimal fraction `m / 10^e`: the carrier for JavaScript numbers
in this code base (it contains every binary double of the relevant
magnitude, and is closed under `+`, `-`, `*`, `/100`). -/
structure Dec where
  m : ℤ
  e : ℕ
deriving DecidableEq, Repr

namespace Dec

/-- Rational value denoted by a decimal. -/
def val (a : Dec) : ℚ := (a.m : ℚ) / 10 ^ a.e

/-- Embedding of an integer. -/
def ofInt (n : ℤ) : Dec := ⟨n, 0⟩

/-- Addition (no normalization; only the value matters). -/
def add (a b : Dec) : Dec := ⟨a.m * 10 ^ b.e + b.m * 10 ^ a.e, a.e + b.e⟩

/-- Subtraction. -/
def sub (a b : Dec) : Dec := ⟨a.m * 10 ^ b.e - b.m * 10 ^ a.e, a.e + b.e⟩

/-- Multiplication. -/
def mul (a b : Dec) : Dec := ⟨a.m * b.m, a.e + b.e⟩

/-- Division by the literal 100 (the only division the code performs). -/
def div100 (a : Dec) : Dec := ⟨a.m, a.e + 2⟩

/-- Negation. -/
def neg (a : Dec) : Dec := ⟨-a.m, a.e⟩

/-- Boolean less-or-equal on values. -/
def ble (a b : Dec) : Bool := decide (a.m * 10 ^ b.e ≤ b.m * 10 ^ a.e)

/-- Boolean strictly-less on values. -/
def blt (a b : Dec) : Bool := decide (a.m * 10 ^ b.e < b.m * 10 ^ a.e)

end Dec

/-- JavaScript number: an exact decimal or NaN. -/
inductive JNum where
  | nan : JNum
  | num : Dec → JNum
deriving DecidableEq, Repr

namespace JNum

/-- Numeric literal of the source (`0`, `1`, `10`, `100`). -/
def lit (n : ℤ) : JNum := num (Dec.ofInt n)

/-- JS addition (NaN propagates). -/
def jadd : JNum → JNum → JNum
  | num a, num b => num (a.add b)
  | _, _ => nan

/-- JS subtraction (NaN propagates). -/
def jsub : JNum → JNum → JNum
  | num a, num b => num (a.sub b)
  | _, _ => nan

/-- JS multiplication (NaN propagates). -/
def jmul : JNum → JNum → JNum
  | num a, num b => num (a.mul b)
  | _, _ => nan

/-- JS division by the literal 100, the only division in the embedded code
(NaN propagates). -/
def jdiv100 : JNum → JNum
  | num a => num a.div100
  | nan => nan

/-- JS less-or-equal as a Boolean: any comparison with NaN is false. -/
def jle : JNum → JNum → Bool
  | num a, num b => a.ble b
  | _, _ => false

/-- JS strictly-less as a Boolean: any comparison with NaN is false. -/
def jlt : JNum → JNum → Bool
  | num a, num b => a.blt b
  | _, _ => false

/-- JS `Math.min` (NaN propagates). -/
def jmin : JNum → JNum → JNum
  | num a, num b => if a.ble b then num a else num b
  | _, _ => nan

/-- JS `Math.max` (NaN propagates). -/
def jmax : JNum → JNum → JNum
  | num a, num b => if a.ble b then num b else num a
  | _, _ => nan

/-- JS truthiness of a number: `0` and `NaN` are falsy. -/
def truthyN : JNum → Bool
  | num a => !(a.ble (Dec.ofInt 0)) || !((Dec.ofInt 0).ble a)
  | nan => false

end JNum

open JNum

/-- Value of a decimal digit character, if it is one. -/
def digitVal (c : Char) : Option ℕ :=
  if '0' ≤ c ∧ c ≤ '9' then some (c.toNat - 48) else none

/-- Natural number denoted by a list of decimal digit characters. -/
def digitsToNat (cs : List Char) : ℕ :=
  cs.foldl (fun a c => 10 * a + (c.toNat - 48)) 0

/-- Splitting off the longest leading run of decimal digits. -/
def takeDigits (cs : List Char) : List Char × List Char :=
  (cs.takeWhile (fun c => (digitVal c).isSome), cs.dropWhile (fun c => (digitVal c).isSome))

/-- Parsing an unsigned decimal literal (`digits`, `digits.digits?`, or
`.digits`) from the front of a character list, returning its value and the
unconsumed rest. -/
def parseUnsignedDec (cs : List Char) : Option (Dec × List Char) :=
  let ip := takeDigits cs
  match ip.2 with
  | '.' :: rest2 =>
      let fp := takeDigits rest2
      if ip.1.isEmpty && fp.1.isEmpty then none
      else some (⟨(digitsToNat ip.1 : ℤ) * 10 ^ fp.1.length + digitsToNat fp.1, fp.1.length⟩, fp.2)
  | _ => if ip.1.isEmpty then none else some (⟨(digitsToNat ip.1 : ℤ), 0⟩, ip.2)

/-- Parsing an optionally signed decimal literal from the front of a
character list. -/
def parseSignedDec (cs : List Char) : Option (Dec × List Char) :=
  match cs with
  | '-' :: rest => (parseUnsignedDec rest).map (fun p => (p.1.neg, p.2))
  | '+' :: rest => parseUnsignedDec rest
  | _ => parseUnsignedDec cs

/-- JS `parseFloat`: skip leading whitespace, then read the longest numeric
prefix; NaN if none exists.  (Exponent and hexadecimal forms are outside the
model.) -/
def jsParseFloat (s : String) : JNum :=
  match parseSignedDec (s.data.dropWhile Char.isWhitespace) with
  | some p => JNum.num p.1
  | none => JNum.nan

/-- JS `Number(...)` on a string: trim whitespace; the empty string is 0; a
full decimal literal denotes its value; anything else is NaN. -/
def jsNumber (s : String) : JNum :=
  let t := ((s.data.dropWhile Char.isWhitespace).reverse.dropWhile Char.isWhitespace).reverse
  if t.isEmpty then JNum.lit 0
  else
    match parseSignedDec t with
    | some (q, []) => JNum.num q
    | _ => JNum.nan

/-- JS truthiness of a string: only the empty string is falsy. -/
def truthyS (s : String) : Bool := s != ""

/-- Rendering of a natural number below 100 as exactly two digits. -/
def twoDigits (n : ℕ) : String :=
  (if n < 10 then "0" else "") ++ toString n

/-- Half-up rounding of a non-negative decimal to cents: the `n` with
`n / 100` closest to the value, ties picking the larger `n` (ECMA-262
`toFixed`), i.e. the floor of `100·v + 1/2`. -/
def centsOf (a : Dec) : ℕ := ((200 * a.m + 10 ^ a.e).fdiv (2 * 10 ^ a.e)).toNat

/-- JS `x.toFixed(2)`: the string `NaN` for NaN; otherwise ECMA-262
extracts a minus sign for a negative value first, then rounds the magnitude
half-up to cents. -/
def jsToFixed2 (x : JNum) : String :=
  match x with
  | JNum.nan => "NaN"
  | JNum.num a =>
      let n := centsOf (if a.m < 0 then a.neg else a)
      (if a.m < 0 then "-" else "") ++ toString (n / 100) ++ "." ++ twoDigits (n % 100)

/-- JS number-to-string conversion for the numbers of this code base
(exact decimals): sign, integer digits, then fractional digits with
trailing zeros removed. -/
def jsNumToString (x : JNum) : String :=
  match x with
  | JNum.nan => "NaN"
  | JNum.num a =>
      let sign := if a.m < 0 then "-" else ""
      let mAbs := a.m.natAbs
      let ip := mAbs / 10 ^ a.e
      let rest := mAbs % 10 ^ a.e
      if rest = 0 then sign ++ toString ip
      else
        let ds := toString rest
        let pad := String.mk (List.replicate (a.e - ds.length) '0')
        let frac := String.mk (((pad ++ ds).data.reverse.dropWhile (· = '0')).reverse)
        sign ++ toString ip ++ "." ++ frac

/-! ## JSON values, configuration payloads, and the evaluator data model -/

/-- JSON scalar as surfaced by `JSON.parse` (configuration fields). -/
inductive JVal where
  | num : Dec → JVal
  | str : String → JVal
  | bool : Bool → JVal
  | null : JVal
deriving DecidableEq, Repr

/-- JS nullish coalescing `x ?? d`: `d` exactly for `null` and `undefined`
(`none` models an absent key, i.e. `undefined`). -/
def valOr (v : Option JVal) (d : JVal) : JVal :=
  match v with
  | none => d
  | some JVal.null => d
  | some x => x

/-- JS `Number(...)` coercion of a JSON scalar. -/
def jsToNumberV : JVal → JNum
  | JVal.num d => JNum.num d
  | JVal.str s => jsNumber s
  | JVal.bool b => if b then JNum.lit 1 else JNum.lit 0
  | JVal.null => JNum.lit 0

/-- JS truthiness of a JSON scalar. -/
def truthyV : JVal → Bool
  | JVal.num d => truthyN (JNum.num d)
  | JVal.str s => truthyS s
  | JVal.bool b => b
  | JVal.null => false

/-- JS `x || d` for the string-valued message fields (the admin UI and the
code's own tests only ever store strings there): any falsy value — an
absent key or the empty string — falls back to the default. -/
def msgOr (v : Option String) (d : String) : String :=
  match v with
  | some s => if truthyS s then s else d
  | none => d

/-- Parsed configuration object.  One shape serves every evaluator
generation: `JSON.parse` is untyped and each generation reads only the keys
it knows (absent keys are `none`). -/
structure Configuration where
  percentage : Option JVal := none
  freeShipping : Option JVal := none
  enabled : Option JVal := none
  productDiscountMessage : Option String := none
  shippingDiscountMessage : Option String := none
deriving DecidableEq, Repr

/-- Configuration metafield value reaching
`JSON.parse(input?.discountNode?.metafield?.value ?? "...")`: a missing
node/metafield/value (the `??` default, parsing to the empty object), a
malformed string (on which `JSON.parse` throws), or a well-formed
payload. -/
inductive Metafield where
  | missing : Metafield
  | malformed : Metafield
  | wellFormed : Configuration → Metafield
deriving DecidableEq, Repr

/-- Exception the embedded evaluators can raise: the `SyntaxError` of
`JSON.parse` on a malformed configuration string. -/
inductive JsError where
  | syntaxError : JsError
deriving DecidableEq, Repr

/-- Model of `JSON.parse(input?.discountNode?.metafield?.value ?? "...")`
with the empty-object default for a missing value. -/
def parseConfigMetafield : Metafield → Except JsError Configuration
  | Metafield.missing => Except.ok {}
  | Metafield.malformed => Except.error JsError.syntaxError
  | Metafield.wellFormed c => Except.ok c

/-- Cost block of one cart line: `cost.amountPerQuantity.amount` and the
optional `cost.compareAtAmountPerQuantity` (whose `amount` is taken when
the object is present). -/
structure LineCost where
  amount : String
  compareAtAmount : Option String
deriving DecidableEq, Repr

/-- Cart line of the order-discount input.  `merchandiseId` models
`(line.merchandise as any).id`; `quantity` is a JS number. -/
structure CartLine where
  merchandiseId : String
  quantity : Dec
  cost : LineCost
deriving DecidableEq, Repr

/-- Delivery option; `handle : Option String` models `opt?.handle` (a
`null` option element behaves as an absent handle). -/
structure DeliveryOption where
  handle : Option String
deriving DecidableEq, Repr

/-- Delivery group; `group.deliveryOptions ?? ...` collapses an absent
list to the empty one. -/
structure DeliveryGroup where
  deliveryOptions : List DeliveryOption
deriving DecidableEq, Repr

/-- Cart snapshot.  `member` models
`Boolean(input.cart.buyerIdentity?.customer?.hasAnyTag)`;
`deliveryGroups` models `input.cart.deliveryGroups ?? ...`. -/
structure Cart where
  member : Bool
  lines : List CartLine
  deliveryGroups : List DeliveryGroup
deriving DecidableEq, Repr

/-- Input of the discount functions: discount-node metafield plus the
cart. -/
structure RunInput where
  metafield : Metafield
  cart : Cart
deriving DecidableEq, Repr

/-- Combination-strategy marker of the generated API. -/
inductive DiscountApplicationStrategy where
  | Maximum : DiscountApplicationStrategy
  | First : DiscountApplicationStrategy
deriving DecidableEq, Repr

/-- Discount target: a product variant (id, quantity) or a delivery option
(handle). -/
inductive Target where
  | productVariant : String → Dec → Target
  | deliveryOption : String → Target
deriving DecidableEq, Repr

/-- Discount value: fixed currency amount (an already-formatted string) or
percentage. -/
inductive DiscountValue where
  | fixedAmount : String → DiscountValue
  | percentage : JNum → DiscountValue
deriving DecidableEq, Repr

/-- One emitted discount record. -/
structure Discount where
  message : String
  targets : List Target
  value : DiscountValue
deriving DecidableEq, Repr

/-- Result of one evaluator run: the optional combination-strategy marker
(the shipping evaluator omits the field) and the discount list. -/
structure FunctionRunResult where
  discountApplicationStrategy : Option DiscountApplicationStrategy
  discounts : List Discount
deriving DecidableEq, Repr

/-- Constant `EMPTY` of the order-discount evaluators. -/
def EMPTY_ORDER : FunctionRunResult :=
  { discountApplicationStrategy := some DiscountApplicationStrategy.Maximum, discounts := [] }

/-- Constant `EMPTY_DISCOUNT` of the shipping evaluator. -/
def EMPTY_SHIPPING : FunctionRunResult :=
  { discountApplicationStrategy := none, discounts := [] }

/-! ## The order-discount evaluators -/

/-- Model of `line.cost.compareAtAmountPerQuantity?.amount ? Number(...) :
undefined`: the compare-at amount as a JS number, `none` when the object is
absent or its amount string is falsy (empty). -/
def lineCompareAt (line : CartLine) : Option JNum :=
  match line.cost.compareAtAmount with
  | some s => if truthyS s then some (jsNumber s) else none
  | none => none

/-- Guard `if (!compareAt || compareAt <= 0) continue`: the usable
compare-at value — a present, non-NaN, strictly positive number (`!x` is
true for `undefined`, `0` and `NaN`). -/
def usableCompareAt : Option JNum → Option Dec
  | some (JNum.num c) => if (Dec.ofInt 0).blt c then some c else none
  | _ => none

/-- Per-line pricing shared verbatim by both generations in
`pfc-member-order-discount/src/run.ts`: target price is
`compareAt * (1 - percent/100)`, the discount amount is
`regular - targetPrice`, and the line is dropped unless that amount is
strictly positive (`if (discountAmount <= 0) continue`). -/
def linePerUnitDiscount (percent : JNum) (line : CartLine) : Option JNum :=
  let regular := jsNumber line.cost.amount
  match usableCompareAt (lineCompareAt line) with
  | none => none
  | some c =>
      let targetPrice := jmul (JNum.num c) (jsub (JNum.lit 1) (jdiv100 percent))
      let discountAmount := jsub regular targetPrice
      if jle discountAmount (JNum.lit 0) then none else some discountAmount

/-- First generation of `pfc-member-order-discount/src/run.ts` (per-line
fixed-amount records, strategy `Maximum`).  The sanitized percentage is
`Math.max(0, Math.min(100, Number(configuration.percentage ?? 0)))` — note
that a NaN percentage passes both `Math` calls and the `percent <= 0` gate
unchanged. -/
def runOrderV1 (input : RunInput) : Except JsError FunctionRunResult :=
  match parseConfigMetafield input.metafield with
  | Except.error err => Except.error err
  | Except.ok cfg =>
      let percent := jmax (JNum.lit 0)
        (jmin (JNum.lit 100) (jsToNumberV (valOr cfg.percentage (JVal.num (Dec.ofInt 0)))))
      if !input.cart.member then Except.ok EMPTY_ORDER
      else if jle percent (JNum.lit 0) then Except.ok EMPTY_ORDER
      else Except.ok
        { discountApplicationStrategy := some DiscountApplicationStrategy.Maximum,
          discounts := input.cart.lines.filterMap (fun line =>
            (linePerUnitDiscount percent line).map (fun d =>
              { message := "PFC Member Discount (" ++ jsNumToString percent
                  ++ "% off compare-at-price)",
                targets := [Target.productVariant line.merchandiseId line.quantity],
                value := DiscountValue.fixedAmount (jsToFixed2 d) })) }

/-- Sanitized percentage of the second generation:
`isNaN(percentNumber) ? 0 : Math.max(0, Math.min(100, percentNumber))`. -/
def sanitizedPercentV2 (cfg : Configuration) : JNum :=
  match jsToNumberV (valOr cfg.percentage (JVal.num (Dec.ofInt 0))) with
  | JNum.nan => JNum.lit 0
  | p => jmax (JNum.lit 0) (jmin (JNum.lit 100) p)

/-- Loop body of the second generation: a qualifying line appends its
target and adds `discountAmountPerUnit * line.quantity` to the running
total. -/
def stepV2 (percent : JNum) (acc : List Target × JNum) (line : CartLine) :
    List Target × JNum :=
  match linePerUnitDiscount percent line with
  | none => acc
  | some perUnit =>
      (acc.1 ++ [Target.productVariant line.merchandiseId line.quantity],
       jadd acc.2 (jmul perUnit (JNum.num line.quantity)))

/-- Second generation of `pfc-member-order-discount/src/run.ts`: one
combined fixed-amount record over all qualifying lines, strategy `First`
(`EMPTY` still carries `Maximum`). -/
def runOrderV2 (input : RunInput) : Except JsError FunctionRunResult :=
  match parseConfigMetafield input.metafield with
  | Except.error err => Except.error err
  | Except.ok cfg =>
      let percent := sanitizedPercentV2 cfg
      if !input.cart.member then Except.ok EMPTY_ORDER
      else if jle percent (JNum.lit 0) then Except.ok EMPTY_ORDER
      else
        let acc := input.cart.lines.foldl (stepV2 percent) ([], JNum.lit 0)
        Except.ok
          { discountApplicationStrategy := some DiscountApplicationStrategy.First,
            discounts :=
              if acc.1.length > 0 then
                [{ message := msgOr cfg.productDiscountMessage "PFC Member Discount",
                   targets := acc.1,
                   value := DiscountValue.fixedAmount (jsToFixed2 acc.2) }]
              else [] }

/-- Base-price selection of the earliest per-line generation:
`const base = compareAt && compareAt > 0 ? compareAt : regular`. -/
def v0Base (line : CartLine) : JNum :=
  match lineCompareAt line with
  | some c => if truthyN c && jlt (JNum.lit 0) c then c else jsNumber line.cost.amount
  | none => jsNumber line.cost.amount

/-- Earliest per-line generation of the order evaluator: percentage-value
records, configured percentage defaulting to 10, product discounts only
under `if (percent > 0)`, lines skipped by `if (!base || base <= 0)`. -/
def runOrderV0 (input : RunInput) : Except JsError FunctionRunResult :=
  match parseConfigMetafield input.metafield with
  | Except.error err => Except.error err
  | Except.ok cfg =>
      let percent := jmax (JNum.lit 0)
        (jmin (JNum.lit 100) (jsToNumberV (valOr cfg.percentage (JVal.num (Dec.ofInt 10)))))
      if !input.cart.member then Except.ok EMPTY_ORDER
      else Except.ok
        { discountApplicationStrategy := some DiscountApplicationStrategy.Maximum,
          discounts :=
            if jlt (JNum.lit 0) percent then
              input.cart.lines.filterMap (fun line =>
                if !(truthyN (v0Base line)) || jle (v0Base line) (JNum.lit 0) then none
                else some
                  { message := "PFC Member Discount",
                    targets := [Target.productVariant line.merchandiseId line.quantity],
                    value := DiscountValue.percentage percent })
            else [] }

/-! ## The shipping-discount evaluators -/

/-- Targets built by both shipping generations: one `deliveryOption` target
per option with a truthy handle, in group order
(`if (opt?.handle) targets.push(...)`). -/
def shippingTargets (cart : Cart) : List Target :=
  cart.deliveryGroups.foldl (fun acc group =>
    group.deliveryOptions.foldl (fun acc2 opt =>
      match opt.handle with
      | some h => if truthyS h then acc2 ++ [Target.deliveryOption h] else acc2
      | none => acc2) acc) []

/-- Specification view of one delivery option's contribution to the target
list. -/
def shipOptTarget (o : DeliveryOption) : Option Target :=
  match o.handle with
  | some h => if truthyS h then some (Target.deliveryOption h) else none
  | none => none

/-- First generation of `pfc-shipping-discount/src/run.ts`: eligibility is
`Boolean(configuration.enabled ?? true) && customerIsMember`; the single
emitted record always carries the literal message
`Free Shipping for PFC Members` and a 100% value. -/
def runShippingV1 (input : RunInput) : Except JsError FunctionRunResult :=
  match parseConfigMetafield input.metafield with
  | Except.error err => Except.error err
  | Except.ok cfg =>
      let enabled := truthyV (valOr cfg.enabled (JVal.bool true))
      if !input.cart.member || !enabled then Except.ok EMPTY_SHIPPING
      else
        let targets := shippingTargets input.cart
        if targets.length = 0 then Except.ok EMPTY_SHIPPING
        else Except.ok
          { discountApplicationStrategy := none,
            discounts :=
              [{ message := "Free Shipping for PFC Members",
                 targets := targets,
                 value := DiscountValue.percentage (JNum.lit 100) }] }

/-- Enabled flag of the configurable-message shipping generation:
`configuration.enabled !== undefined ? Boolean(configuration.enabled) :
true`. -/
def shipEnabled (cfg : Configuration) : Bool :=
  match cfg.enabled with
  | some v => truthyV v
  | none => true

/-- Configurable-message generation of the shipping evaluator; the message
is `configuration.shippingDiscountMessage || "Free Shipping for PFC
Members"`. -/
def runShippingV2 (input : RunInput) : Except JsError FunctionRunResult :=
  match parseConfigMetafield input.metafield with
  | Except.error err => Except.error err
  | Except.ok cfg =>
      if !input.cart.member then Except.ok EMPTY_SHIPPING
      else if !(shipEnabled cfg) then Except.ok EMPTY_SHIPPING
      else
        let targets := shippingTargets input.cart
        if targets.length = 0 then Except.ok EMPTY_SHIPPING
        else Except.ok
          { discountApplicationStrategy := none,
            discounts :=
              [{ message := msgOr cfg.shippingDiscountMessage "Free Shipping for PFC Members",
                 targets := targets,
                 value := DiscountValue.percentage (JNum.lit 100) }] }

/-! ## The cart-transform function -/

/-- Pricing of a product variant on a cart-transform line. -/
structure CTVariant where
  price : String
  compareAtPrice : Option String
deriving DecidableEq, Repr

/-- One cart-transform input line. -/
structure CTLine where
  id : String
  variant : CTVariant
  subtotalAmount : String
deriving DecidableEq, Repr

/-- Model of `cart.buyerIdentity?.customer` of the cart-transform input. -/
structure CTCustomer where
  id : String
  tags : Option (List String)
deriving DecidableEq, Repr

/-- Cart-transform input. -/
structure CTInput where
  lines : List CTLine
  customer : Option CTCustomer
deriving DecidableEq, Repr

/-- Ambient environment read by `getDiscountSettings` (spec §9 notes this
global lookup; it is passed explicitly here). -/
structure Env where
  pfcMemberTag : Option String := none
  pfcDiscountPercent : Option String := none
  pfcDiscountEnabled : Option String := none
deriving DecidableEq, Repr

/-- Discount settings derived from the environment. -/
structure CTSettings where
  isEnabled : Bool
  discountPercent : JNum
  pfcMemberTag : String
deriving DecidableEq, Repr

/-- Model of `getDiscountSettings()`: tag `env.PFC_MEMBER_TAG ||
"plastic-free-club"`, percent `parseFloat(env.PFC_DISCOUNT_PERCENT ||
"10")`, enabled `(env.PFC_DISCOUNT_ENABLED ?? "true") !== "false"`. -/
def getDiscountSettings (env : Env) : CTSettings :=
  { pfcMemberTag := msgOr env.pfcMemberTag "plastic-free-club",
    discountPercent := jsParseFloat (msgOr env.pfcDiscountPercent "10"),
    isEnabled := (match env.pfcDiscountEnabled with
      | some s => s
      | none => "true") ≠ "false" }

/-- One cart-transform output line (`attributes` present only on the
discount path). -/
structure CTOutLine where
  id : String
  subtotalAmount : String
  attributes : Option (List (String × String))
deriving DecidableEq, Repr

/-- Cart-transform output. -/
structure CTOutput where
  lines : List CTOutLine
deriving DecidableEq, Repr

/-- Pass-through mapping used on every non-discount path:
`cart.lines.map(line => (id: line.id, cost: line.cost))`. -/
def ctOriginal (lines : List CTLine) : CTOutput :=
  { lines := lines.map (fun l =>
      { id := l.id, subtotalAmount := l.subtotalAmount, attributes := none }) }

/-- Model of `s.toLowerCase()` (character-wise, kernel-computable). -/
def jsToLower (s : String) : String := String.mk (s.data.map Char.toLower)

/-- Model of `s.trim()` (whitespace from both ends, kernel-computable). -/
def jsTrim (s : String) : String :=
  String.mk (((s.data.dropWhile Char.isWhitespace).reverse.dropWhile Char.isWhitespace).reverse)

/-- Tag normalization `tag.toLowerCase().trim()`. -/
def normTag (s : String) : String := jsTrim (jsToLower s)

/-- Membership test of the cart transform:
`customerTags.some(tag => tag.toLowerCase().trim() ===
settings.pfcMemberTag.toLowerCase().trim())` for a logged-in customer. -/
def ctIsMember (env : Env) (input : CTInput) : Bool :=
  match input.customer with
  | some cust =>
      (cust.tags.getD []).any
        (fun t => normTag t == normTag (getDiscountSettings env).pfcMemberTag)
  | none => false

/-- Discount-path mapping for one line of the cart transform: the subtotal
becomes `(compareAt > 0 ? compareAt : original) * (1 - percent/100)`
formatted with `toFixed(2)` — with no comparison against the price
actually charged. -/
def ctDiscountLine (st : CTSettings) (l : CTLine) : CTOutLine :=
  let originalPrice := jsParseFloat l.variant.price
  let compareAtPrice : Option JNum :=
    match l.variant.compareAtPrice with
    | some s => if truthyS s then some (jsParseFloat s) else none
    | none => none
  let discountedPrice :=
    if jlt (JNum.lit 0) st.discountPercent then
      match compareAtPrice with
      | some c =>
          if truthyN c && jlt (JNum.lit 0) c then
            jmul c (jsub (JNum.lit 1) (jdiv100 st.discountPercent))
          else jmul originalPrice (jsub (JNum.lit 1) (jdiv100 st.discountPercent))
      | none => jmul originalPrice (jsub (JNum.lit 1) (jdiv100 st.discountPercent))
    else originalPrice
  { id := l.id,
    subtotalAmount := jsToFixed2 discountedPrice,
    attributes := some
      [("pfc_discount_applied", "true"),
       ("pfc_discount_percent", jsNumToString st.discountPercent),
       ("original_price", jsToFixed2 originalPrice),
       ("pfc_member", "true")] }

/-- Run function of `extensions/cart-transform-function/src/index.ts`.  The
model is total: no operation in the `try` block can throw, so the `catch`
branch (which would also return the pass-through mapping) is
unreachable. -/
def runCartTransform (env : Env) (input : CTInput) : CTOutput :=
  match input.customer with
  | none => ctOriginal input.lines
  | some cust =>
      if !(truthyS cust.id) then ctOriginal input.lines
      else
        let st := getDiscountSettings env
        if !(ctIsMember env input) || !st.isEnabled
            || jle st.discountPercent (JNum.lit 0) then
          ctOriginal input.lines
        else { lines := input.lines.map (ctDiscountLine st) }

/-- Condition under which the claim of frame-preservation applies to the
cart transform: buyer not logged in, not a member, discounting disabled, or
a non-positive discount percent. -/
def ctNonDiscountPath (env : Env) (input : CTInput) : Prop :=
  match input.customer with
  | none => True
  | some cust =>
      truthyS cust.id = false
      ∨ ctIsMember env input = false
      ∨ (getDiscountSettings env).isEnabled = false
      ∨ jle (getDiscountSettings env).discountPercent (JNum.lit 0) = true

/-! ## `calculateMemberPrice` (`app/lib/discount-logic.server.ts`) -/

/-- Helper `calculateMemberPrice(compareAtPrice, discountPercent)`: null
when `!compareAtPrice || parseFloat(compareAtPrice) <= 0`, otherwise
`(parseFloat(compareAtPrice) * (1 - discountPercent/100)).toFixed(2)`. -/
def calculateMemberPrice (compareAtPrice : Option String) (discountPercent : Dec) :
    Option String :=
  match compareAtPrice with
  | none => none
  | some s =>
      if !(truthyS s) then none
      else if jle (jsParseFloat s) (JNum.lit 0) then none
      else some (jsToFixed2
        (jmul (jsParseFloat s) (jsub (JNum.lit 1) (jdiv100 (JNum.num discountPercent)))))

/-! ## Specification-level views used by the theorems -/

/-- Specification form of the per-unit discount decimal of a line with
regular amount `r`, compare-at `c` and percentage `p`. -/
def perUnitDec (p r c : Dec) : Dec := r.sub (c.mul ((Dec.ofInt 1).sub p.div100))

/-- Targets of the qualifying lines, in cart order (combined mode). -/
def v2Targets (percent : JNum) (lines : List CartLine) : List Target :=
  lines.filterMap (fun l => (linePerUnitDiscount percent l).map
    (fun _ => Target.productVariant l.merchandiseId l.quantity))

/-- Rational contribution of one line to the combined total:
per-unit discount times quantity for a qualifying line, 0 otherwise. -/
def lineContribution (percent : JNum) (l : CartLine) : ℚ :=
  match linePerUnitDiscount percent l with
  | some (JNum.num d) => d.val * l.quantity.val
  | _ => 0

/-! ## Concrete fixtures (the carts of the repository's own tests) -/

deriving instance DecidableEq for Except

/-- Moisturizer line: unit price 34.00, compare-at 34.00, quantity 1. -/
def lineMoisturizer : CartLine :=
  { merchandiseId := "gid-moisturizer", quantity := Dec.ofInt 1,
    cost := { amount := "34.00", compareAtAmount := some "34.00" } }

/-- Lip-balm line: unit price 8.00, compare-at 10.00 (retail already
better). -/
def lineLipbalm : CartLine :=
  { merchandiseId := "gid-lipbalm", quantity := Dec.ofInt 1,
    cost := { amount := "8.00", compareAtAmount := some "10.00" } }

/-- Vitamin-C line: unit price 39.00, compare-at 42.00. -/
def lineVitaminc : CartLine :=
  { merchandiseId := "gid-vitaminc", quantity := Dec.ofInt 1,
    cost := { amount := "39.00", compareAtAmount := some "42.00" } }

/-- Moisturizer at quantity 2. -/
def lineMoisturizerQ2 : CartLine :=
  { merchandiseId := "gid-moisturizer", quantity := Dec.ofInt 2,
    cost := { amount := "34.00", compareAtAmount := some "34.00" } }

/-- Test line of the repository's invalid-configuration test: 20.00 with
compare-at 25.00. -/
def lineTwenty : CartLine :=
  { merchandiseId := "gid-123", quantity := Dec.ofInt 1,
    cost := { amount := "20.00", compareAtAmount := some "25.00" } }

/-- Payload `percentage 10`. -/
def cfg10 : Configuration := { percentage := some (JVal.num (Dec.ofInt 10)) }

/-- Payload with the string `invalid` as percentage. -/
def cfgInvalid : Configuration := { percentage := some (JVal.str "invalid") }

/-- Three-line member cart at percent 10. -/
def inputThreeLines : RunInput :=
  { metafield := Metafield.wellFormed cfg10,
    cart := { member := true, lines := [lineMoisturizer, lineLipbalm, lineVitaminc],
              deliveryGroups := [] } }

/-- Quantity-2 member cart at percent 10. -/
def inputQty2 : RunInput :=
  { metafield := Metafield.wellFormed cfg10,
    cart := { member := true, lines := [lineMoisturizerQ2], deliveryGroups := [] } }

/-- Member cart carrying the invalid-percentage payload and the 20/25
line. -/
def inputInvalidPercent : RunInput :=
  { metafield := Metafield.wellFormed cfgInvalid,
    cart := { member := true, lines := [lineTwenty], deliveryGroups := [] } }

/-- Member input with a malformed configuration metafield. -/
def inputMalformed : RunInput :=
  { metafield := Metafield.malformed,
    cart := { member := true, lines := [lineMoisturizer],
              deliveryGroups := [{ deliveryOptions := [{ handle := some "standard" }] }] } }

/-- Eligible shipping input with one delivery option and no
configuration. -/
def inputShipping : RunInput :=
  { metafield := Metafield.missing,
    cart := { member := true, lines := [],
              deliveryGroups := [{ deliveryOptions := [{ handle := some "standard" }] }] } }

/-- Member cart-transform input whose compare-at (100.00) is far above the
charged price (50.00). -/
def ctInputRaise : CTInput :=
  { lines := [{ id := "L1", variant := { price := "50.00", compareAtPrice := some "100.00" },
                subtotalAmount := "50.00" }],
    customer := some { id := "c1", tags := some ["plastic-free-club"] } }

/-- Cart-transform input of a logged-in non-member. -/
def ctInputNonMember : CTInput :=
  { lines := [{ id := "L1", variant := { price := "50.00", compareAtPrice := some "100.00" },
                subtotalAmount := "50.00" }],
    customer := some { id := "c1", tags := some ["other-tag"] } }

/-- Line with unit price and compare-at both 25.00. -/
def lineTwentyFive : CartLine :=
  { merchandiseId := "gid-25", quantity := Dec.ofInt 1,
    cost := { amount := "25.00", compareAtAmount := some "25.00" } }

/-- Payload `percentage 150` (over the clamp). -/
def cfg150 : Configuration := { percentage := some (JVal.num (Dec.ofInt 150)) }

/-- Payload `percentage -10` (below the clamp). -/
def cfgNeg10 : Configuration := { percentage := some (JVal.num (Dec.ofInt (-10))) }

/-- Member cart at percentage 150 with the 25/25 line. -/
def inputPercent150 : RunInput :=
  { metafield := Metafield.wellFormed cfg150,
    cart := { member := true, lines := [lineTwentyFive], deliveryGroups := [] } }

/-- Member cart at percentage -10 with the 20/25 line. -/
def inputPercentNeg : RunInput :=
  { metafield := Metafield.wellFormed cfgNeg10,
    cart := { member := true, lines := [lineTwenty], deliveryGroups := [] } }

/-- Non-member input with a missing metafield. -/
def inputNonMemberMissing : RunInput :=
  { metafield := Metafield.missing,
    cart := { member := false, lines := [lineMoisturizer], deliveryGroups := [] } }

/-- Non-member input with a malformed metafield. -/
def inputNonMemberMalformed : RunInput :=
  { metafield := Metafield.malformed,
    cart := { member := false, lines := [], deliveryGroups := [] } }

/-- Member cart whose only line does not qualify (retail already better). -/
def inputLipbalmOnly : RunInput :=
  { metafield := Metafield.wellFormed cfg10,
    cart := { member := true, lines := [lineLipbalm], deliveryGroups := [] } }

/-- Member cart with only the moisturizer line at percent 10. -/
def inputMoisturizerOnly : RunInput :=
  { metafield := Metafield.wellFormed cfg10,
    cart := { member := true, lines := [lineMoisturizer], deliveryGroups := [] } }

/-- Member shipping input with no delivery groups at all. -/
def inputShippingNoGroups : RunInput :=
  { metafield := Metafield.missing,
    cart := { member := true, lines := [], deliveryGroups := [] } }

/-! ## Arithmetic lemmas for the decimal carrier -/

theorem Dec.val_ofInt (n : ℤ) : (Dec.ofInt n).val = (n : ℚ) := by
  simp [Dec.ofInt, Dec.val]

theorem Dec.pow_ten_pos (e : ℕ) : (0 : ℚ) < 10 ^ e := by positivity

theorem Dec.val_add (a b : Dec) : (Dec.add a b).val = a.val + b.val := by
  unfold Dec.add Dec.val
  rw [div_add_div _ _ (Dec.pow_ten_pos a.e).ne' (Dec.pow_ten_pos b.e).ne', pow_add]
  push_cast
  ring

theorem Dec.val_sub (a b : Dec) : (Dec.sub a b).val = a.val - b.val := by
  unfold Dec.sub Dec.val
  rw [div_sub_div _ _ (Dec.pow_ten_pos a.e).ne' (Dec.pow_ten_pos b.e).ne', pow_add]
  push_cast
  ring

theorem Dec.val_mul (a b : Dec) : (Dec.mul a b).val = a.val * b.val := by
  unfold Dec.mul Dec.val
  rw [div_mul_div_comm, pow_add]
  push_cast
  ring

theorem Dec.val_div100 (a : Dec) : (Dec.div100 a).val = a.val / 100 := by
  unfold Dec.div100 Dec.val
  rw [pow_add, div_div]
  norm_num

theorem Dec.val_neg (a : Dec) : (Dec.neg a).val = -a.val := by
  unfold Dec.neg Dec.val
  push_cast
  exact neg_div _ _

theorem Dec.ble_iff (a b : Dec) : Dec.ble a b = true ↔ a.val ≤ b.val := by
  unfold Dec.ble Dec.val
  rw [decide_eq_true_iff, div_le_div_iff (Dec.pow_ten_pos a.e) (Dec.pow_ten_pos b.e)]
  exact_mod_cast Iff.rfl

theorem Dec.blt_iff (a b : Dec) : Dec.blt a b = true ↔ a.val < b.val := by
  unfold Dec.blt Dec.val
  rw [decide_eq_true_iff, div_lt_div_iff (Dec.pow_ten_pos a.e) (Dec.pow_ten_pos b.e)]
  exact_mod_cast Iff.rfl

theorem Dec.ble_eq_false_iff (a b : Dec) : Dec.ble a b = false ↔ b.val < a.val := by
  rw [Bool.eq_false_iff, ne_eq, Dec.ble_iff, not_le]

theorem Dec.blt_eq_false_iff (a b : Dec) : Dec.blt a b = false ↔ b.val ≤ a.val := by
  rw [Bool.eq_false_iff, ne_eq, Dec.blt_iff, not_lt]

theorem Dec.m_neg_iff (a : Dec) : a.m < 0 ↔ a.val < 0 := by
  unfold Dec.val
  constructor
  · intro hm
    exact div_neg_of_neg_of_pos (by exact_mod_cast hm) (Dec.pow_ten_pos a.e)
  · intro hv
    rcases div_neg_iff.mp hv with ⟨_, hb⟩ | ⟨ha, _⟩
    · exact absurd hb (not_lt.mpr (Dec.pow_ten_pos a.e).le)
    · exact_mod_cast ha

theorem JNum.truthyN_num (a : Dec) : truthyN (JNum.num a) = true ↔ a.val ≠ 0 := by
  unfold JNum.truthyN
  simp only [Bool.or_eq_true, Bool.not_eq_true', Dec.ble_eq_false_iff, Dec.val_ofInt,
    Int.cast_zero]
  constructor
  · rintro (h | h)
    · exact ne_of_gt h
    · exact ne_of_lt h
  · intro h
    rcases h.lt_or_lt with h1 | h1
    · exact Or.inr h1
    · exact Or.inl h1

theorem truthyS_iff (s : String) : truthyS s = true ↔ s ≠ "" := by
  unfold truthyS
  exact bne_iff_ne

theorem centsOf_eq_floor (a : Dec) : centsOf a = (⌊100 * a.val + 1 / 2⌋).toNat := by
  unfold centsOf
  have hcast : (2 * 10 ^ a.e : ℤ) = ((2 * 10 ^ a.e : ℕ) : ℤ) := by push_cast; ring
  rw [hcast, Int.fdiv_eq_ediv _ (by positivity), ← Rat.floor_intCast_div_natCast]
  congr 2
  unfold Dec.val
  have h10 : ((10 : ℚ)) ^ a.e ≠ 0 := (Dec.pow_ten_pos a.e).ne'
  push_cast
  field_simp
  ring

theorem centsOf_congr (a b : Dec) (h : a.val = b.val) : centsOf a = centsOf b := by
  rw [centsOf_eq_floor, centsOf_eq_floor, h]

theorem jsToFixed2_congr (a b : Dec) (h : a.val = b.val) :
    jsToFixed2 (JNum.num a) = jsToFixed2 (JNum.num b) := by
  unfold jsToFixed2
  have hneg : a.m < 0 ↔ b.m < 0 := by rw [Dec.m_neg_iff, Dec.m_neg_iff, h]
  by_cases ha : a.m < 0
  · have hb := hneg.mp ha
    simp only [if_pos ha, if_pos hb]
    rw [centsOf_congr a.neg b.neg (by rw [Dec.val_neg, Dec.val_neg, h])]
  · have hb : ¬ b.m < 0 := fun hb => ha (hneg.mpr hb)
    simp only [if_neg ha, if_neg hb]
    rw [centsOf_congr a b h]

/-! ## Structural lemmas about the evaluators -/

theorem clamp_char (x : Dec) (h0 : 0 ≤ x.val) (h100 : x.val ≤ 100) :
    ∃ q : Dec, jmax (JNum.lit 0) (jmin (JNum.lit 100) (JNum.num x)) = JNum.num q
      ∧ q.val = x.val := by
  unfold JNum.jmin JNum.lit
  cases hble : (Dec.ofInt 100).ble x with
  | true =>
      have hx : x.val = 100 := by
        have := (Dec.ble_iff _ _).mp hble
        rw [Dec.val_ofInt] at this
        push_cast at this
        linarith
      refine ⟨Dec.ofInt 100, ?_, by rw [Dec.val_ofInt, hx]; norm_num⟩
      have h2 : (Dec.ofInt 0).ble (Dec.ofInt 100) = true := by decide
      simp [JNum.jmax, hble, h2]
  | false =>
      refine ⟨x, ?_, rfl⟩
      have h2 : (Dec.ofInt 0).ble x = true := by
        rw [Dec.ble_iff, Dec.val_ofInt]
        push_cast
        exact h0
      simp [JNum.jmax, hble, h2]

theorem perUnitDec_val (p r c : Dec) :
    (perUnitDec p r c).val = r.val - c.val * (1 - p.val / 100) := by
  simp [perUnitDec, Dec.val_sub, Dec.val_mul, Dec.val_div100, Dec.val_ofInt]

theorem linePerUnitDiscount_char (p : Dec) (line : CartLine) (r c : Dec)
    (hr : jsNumber line.cost.amount = JNum.num r)
    (hc : usableCompareAt (lineCompareAt line) = some c) :
    linePerUnitDiscount (JNum.num p) line =
      if 0 < (perUnitDec p r c).val then some (JNum.num (perUnitDec p r c)) else none := by
  have hfold : r.sub (c.mul ((Dec.ofInt 1).sub p.div100)) = perUnitDec p r c := rfl
  simp only [linePerUnitDiscount, hr, hc, JNum.jmul, JNum.jsub, JNum.jdiv100, JNum.lit,
    JNum.jle, hfold]
  rcases le_or_lt (perUnitDec p r c).val 0 with hle | hlt
  · have hble : (perUnitDec p r c).ble (Dec.ofInt 0) = true := by
      rw [Dec.ble_iff, Dec.val_ofInt]
      push_cast
      exact hle
    rw [hble, if_pos rfl, if_neg (not_lt.mpr hle)]
  · have hble : (perUnitDec p r c).ble (Dec.ofInt 0) = false := by
      rw [Dec.ble_eq_false_iff, Dec.val_ofInt]
      push_cast
      exact hlt
    rw [hble, if_neg (by simp), if_pos hlt]

theorem linePerUnitDiscount_isSome_iff (p : Dec) (line : CartLine) (r c : Dec)
    (hr : jsNumber line.cost.amount = JNum.num r)
    (hc : usableCompareAt (lineCompareAt line) = some c) :
    (linePerUnitDiscount (JNum.num p) line).isSome = true
      ↔ 0 < r.val - c.val * (1 - p.val / 100) := by
  rw [linePerUnitDiscount_char p line r c hr hc, ← perUnitDec_val p r c]
  rcases lt_or_le 0 (perUnitDec p r c).val with h | h
  · simp [if_pos h, h]
  · simp [if_neg (not_lt.mpr h), not_lt.mpr h]

theorem linePerUnitDiscount_isNum (p : Dec) (line : CartLine) (r : Dec)
    (hr : jsNumber line.cost.amount = JNum.num r) (d : JNum)
    (h : linePerUnitDiscount (JNum.num p) line = some d) : ∃ dd : Dec, d = JNum.num dd := by
  cases hc : usableCompareAt (lineCompareAt line) with
  | none =>
      simp only [linePerUnitDiscount, hc] at h
      cases h
  | some c =>
      rw [linePerUnitDiscount_char p line r c hr hc] at h
      rcases lt_or_le 0 (perUnitDec p r c).val with hp | hp
      · rw [if_pos hp] at h
        exact ⟨perUnitDec p r c, (Option.some_inj.mp h).symm⟩
      · rw [if_neg (not_lt.mpr hp)] at h
        cases h

theorem foldV2_targets (percent : JNum) (lines : List CartLine) :
    ∀ (ts : List Target) (t : JNum),
      (lines.foldl (stepV2 percent) (ts, t)).1 = ts ++ v2Targets percent lines := by
  induction lines with
  | nil => intro ts t; simp [v2Targets]
  | cons l ls ih =>
      intro ts t
      rw [List.foldl_cons]
      cases h : linePerUnitDiscount percent l with
      | none =>
          rw [show stepV2 percent (ts, t) l = (ts, t) from by simp [stepV2, h]]
          rw [ih ts t]
          simp [v2Targets, List.filterMap_cons, h]
      | some d =>
          rw [show stepV2 percent (ts, t) l =
              (ts ++ [Target.productVariant l.merchandiseId l.quantity],
               jadd t (jmul d (JNum.num l.quantity))) from by simp [stepV2, h]]
          rw [ih]
          rw [List.append_assoc]
          simp [v2Targets, List.filterMap_cons, h]

theorem foldV2_total (p : Dec) (lines : List CartLine) :
    ∀ (ts : List Target) (t : Dec),
      (∀ l ∈ lines, ∃ r, jsNumber l.cost.amount = JNum.num r) →
      ∃ T : Dec, (lines.foldl (stepV2 (JNum.num p)) (ts, JNum.num t)).2 = JNum.num T ∧
        T.val = t.val + (lines.map (lineContribution (JNum.num p))).sum := by
  induction lines with
  | nil =>
      intro ts t _
      exact ⟨t, rfl, by simp⟩
  | cons l ls ih =>
      intro ts t hgood
      obtain ⟨r, hr⟩ := hgood l (List.mem_cons_self l ls)
      have hgoodls : ∀ l2 ∈ ls, ∃ r2, jsNumber l2.cost.amount = JNum.num r2 :=
        fun l2 hl2 => hgood l2 (List.mem_cons_of_mem l hl2)
      rw [List.foldl_cons]
      cases h : linePerUnitDiscount (JNum.num p) l with
      | none =>
          rw [show stepV2 (JNum.num p) (ts, JNum.num t) l = (ts, JNum.num t) from by
            simp [stepV2, h]]
          obtain ⟨T, hT, hTval⟩ := ih ts t hgoodls
          refine ⟨T, hT, ?_⟩
          rw [hTval]
          simp [lineContribution, h]
      | some d =>
          obtain ⟨dd, rfl⟩ := linePerUnitDiscount_isNum p l r hr d h
          rw [show stepV2 (JNum.num p) (ts, JNum.num t) l =
              (ts ++ [Target.productVariant l.merchandiseId l.quantity],
               JNum.num (t.add (dd.mul l.quantity))) from by
            simp [stepV2, h, JNum.jadd, JNum.jmul]]
          obtain ⟨T, hT, hTval⟩ :=
            ih (ts ++ [Target.productVariant l.merchandiseId l.quantity])
              (t.add (dd.mul l.quantity)) hgoodls
          refine ⟨T, hT, ?_⟩
          rw [hTval, Dec.val_add, Dec.val_mul]
          simp only [List.map_cons, List.sum_cons, lineContribution, h]
          ring

theorem shipInnerFold (opts : List DeliveryOption) :
    ∀ acc : List Target,
      opts.foldl (fun acc2 opt =>
        match opt.handle with
        | some h => if truthyS h then acc2 ++ [Target.deliveryOption h] else acc2
        | none => acc2) acc = acc ++ opts.filterMap shipOptTarget := by
  induction opts with
  | nil => intro acc; simp
  | cons o os ih =>
      intro acc
      rw [List.foldl_cons]
      cases ho : o.handle with
      | none =>
          simp only [ho]
          rw [ih acc]
          simp [shipOptTarget, List.filterMap_cons, ho]
      | some h =>
          by_cases ht : truthyS h
          · simp only [ho, if_pos ht]
            rw [ih]
            rw [List.append_assoc]
            simp [shipOptTarget, List.filterMap_cons, ho, ht]
          · simp only [ho, if_neg ht]
            rw [ih acc]
            simp [shipOptTarget, List.filterMap_cons, ho, ht]

theorem shippingTargets_char (cart : Cart) :
    shippingTargets cart =
      (cart.deliveryGroups.map (fun g => g.deliveryOptions.filterMap shipOptTarget)).flatten := by
  unfold shippingTargets
  suffices h : ∀ (gs : List DeliveryGroup) (acc : List Target),
      gs.foldl (fun acc group =>
        group.deliveryOptions.foldl (fun acc2 opt =>
          match opt.handle with
          | some h => if truthyS h then acc2 ++ [Target.deliveryOption h] else acc2
          | none => acc2) acc) acc =
        acc ++ (gs.map (fun g => g.deliveryOptions.filterMap shipOptTarget)).flatten by
    simpa using h cart.deliveryGroups []
  intro gs
  induction gs with
  | nil => intro acc; simp
  | cons g gs2 ih =>
      intro acc
      rw [List.foldl_cons, shipInnerFold g.deliveryOptions acc, ih]
      simp [List.append_assoc]

theorem jmin_num (a b : Dec) :
    jmin (JNum.num a) (JNum.num b) = if a.ble b then JNum.num a else JNum.num b := rfl

theorem jmax_num (a b : Dec) :
    jmax (JNum.num a) (JNum.num b) = if a.ble b then JNum.num b else JNum.num a := rfl

theorem sanitizedPercentV2_isNum (cfg : Configuration) :
    ∃ q : Dec, sanitizedPercentV2 cfg = JNum.num q := by
  unfold sanitizedPercentV2
  cases h : jsToNumberV (valOr cfg.percentage (JVal.num (Dec.ofInt 0))) with
  | nan => exact ⟨Dec.ofInt 0, rfl⟩
  | num x =>
      show ∃ q, jmax (JNum.lit 0) (jmin (JNum.lit 100) (JNum.num x)) = JNum.num q
      rw [show JNum.lit 100 = JNum.num (Dec.ofInt 100) from rfl,
        show JNum.lit 0 = JNum.num (Dec.ofInt 0) from rfl, jmin_num]
      by_cases h1 : (Dec.ofInt 100).ble x = true
      · rw [if_pos h1, jmax_num]
        by_cases h2 : (Dec.ofInt 0).ble (Dec.ofInt 100) = true
        · rw [if_pos h2]; exact ⟨_, rfl⟩
        · rw [if_neg h2]; exact ⟨_, rfl⟩
      · rw [if_neg h1, jmax_num]
        by_cases h2 : (Dec.ofInt 0).ble x = true
        · rw [if_pos h2]; exact ⟨_, rfl⟩
        · rw [if_neg h2]; exact ⟨_, rfl⟩

theorem sanitizedPercentV2_num (cfg : Configuration) (p : Dec)
    (hcfg : cfg.percentage = some (JVal.num p)) (h0 : 0 ≤ p.val) (h100 : p.val ≤ 100) :
    ∃ q : Dec, sanitizedPercentV2 cfg = JNum.num q ∧ q.val = p.val := by
  unfold sanitizedPercentV2
  rw [hcfg]
  simp only [valOr, jsToNumberV]
  exact clamp_char p h0 h100

theorem runOrderV1_char (input : RunInput) (cfg : Configuration) (p q : Dec)
    (hparse : parseConfigMetafield input.metafield = Except.ok cfg)
    (hcfg : cfg.percentage = some (JVal.num p))
    (hmem : input.cart.member = true)
    (hq : jmax (JNum.lit 0) (jmin (JNum.lit 100) (JNum.num p)) = JNum.num q)
    (hqpos : 0 < q.val) :
    runOrderV1 input = Except.ok
      { discountApplicationStrategy := some DiscountApplicationStrategy.Maximum,
        discounts := input.cart.lines.filterMap (fun line =>
          (linePerUnitDiscount (JNum.num q) line).map (fun d =>
            { message := "PFC Member Discount (" ++ jsNumToString (JNum.num q)
                ++ "% off compare-at-price)",
              targets := [Target.productVariant line.merchandiseId line.quantity],
              value := DiscountValue.fixedAmount (jsToFixed2 d) })) } := by
  have hble : Dec.ble q (Dec.ofInt 0) = false := by
    rw [Dec.ble_eq_false_iff, Dec.val_ofInt]
    push_cast
    exact hqpos
  unfold runOrderV1
  rw [hparse]
  simp only [hcfg, valOr, jsToNumberV]
  rw [hq]
  simp only [hmem, Bool.not_true, Bool.false_eq_true, if_false, JNum.lit, JNum.jle, hble]

theorem runOrderV2_char (input : RunInput) (cfg : Configuration) (q : Dec)
    (hparse : parseConfigMetafield input.metafield = Except.ok cfg)
    (hmem : input.cart.member = true)
    (hq : sanitizedPercentV2 cfg = JNum.num q)
    (hqpos : 0 < q.val) :
    runOrderV2 input = Except.ok
      { discountApplicationStrategy := some DiscountApplicationStrategy.First,
        discounts :=
          if (v2Targets (JNum.num q) input.cart.lines).length > 0 then
            [{ message := msgOr cfg.productDiscountMessage "PFC Member Discount",
               targets := v2Targets (JNum.num q) input.cart.lines,
               value := DiscountValue.fixedAmount
                 (jsToFixed2 (input.cart.lines.foldl (stepV2 (JNum.num q))
                   ([], JNum.lit 0)).2) }]
          else [] } := by
  have hble : Dec.ble q (Dec.ofInt 0) = false := by
    rw [Dec.ble_eq_false_iff, Dec.val_ofInt]
    push_cast
    exact hqpos
  unfold runOrderV2
  rw [hparse]
  simp only [hq, hmem, Bool.not_true, Bool.false_eq_true, if_false, JNum.jle,
    JNum.lit, hble]
  rw [foldV2_targets (JNum.num q) input.cart.lines [] (JNum.num (Dec.ofInt 0))]
  simp

theorem runShippingV2_char (input : RunInput) (cfg : Configuration)
    (hparse : parseConfigMetafield input.metafield = Except.ok cfg)
    (hmem : input.cart.member = true)
    (hen : shipEnabled cfg = true)
    (hne : shippingTargets input.cart ≠ []) :
    runShippingV2 input = Except.ok
      { discountApplicationStrategy := none,
        discounts :=
          [{ message := msgOr cfg.shippingDiscountMessage "Free Shipping for PFC Members",
             targets := shippingTargets input.cart,
             value := DiscountValue.percentage (JNum.lit 100) }] } := by
  unfold runShippingV2
  rw [hparse]
  simp only [hmem, hen, Bool.not_true, Bool.false_eq_true, if_false]
  rw [if_neg (by simpa [List.length_eq_zero] using hne)]

theorem runShippingV1_char (input : RunInput) (cfg : Configuration)
    (hparse : parseConfigMetafield input.metafield = Except.ok cfg)
    (hmem : input.cart.member = true)
    (hen : truthyV (valOr cfg.enabled (JVal.bool true)) = true)
    (hne : shippingTargets input.cart ≠ []) :
    runShippingV1 input = Except.ok
      { discountApplicationStrategy := none,
        discounts :=
          [{ message := "Free Shipping for PFC Members",
             targets := shippingTargets input.cart,
             value := DiscountValue.percentage (JNum.lit 100) }] } := by
  unfold runShippingV1
  rw [hparse]
  simp only [hmem, hen, Bool.not_true, Bool.not_false, Bool.false_or,
    Bool.false_eq_true, if_false]
  rw [if_neg (by simpa [List.length_eq_zero] using hne)]

theorem runOrderV0_nonmember (input : RunInput) (h1 : input.metafield ≠ Metafield.malformed)
    (h2 : input.cart.member = false) : runOrderV0 input = Except.ok EMPTY_ORDER := by
  unfold runOrderV0
  cases hm : input.metafield with
  | malformed => exact absurd hm h1
  | missing => simp [parseConfigMetafield, h2]
  | wellFormed c => simp [parseConfigMetafield, h2]

theorem runOrderV1_nonmember (input : RunInput) (h1 : input.metafield ≠ Metafield.malformed)
    (h2 : input.cart.member = false) : runOrderV1 input = Except.ok EMPTY_ORDER := by
  unfold runOrderV1
  cases hm : input.metafield with
  | malformed => exact absurd hm h1
  | missing => simp [parseConfigMetafield, h2]
  | wellFormed c => simp [parseConfigMetafield, h2]

theorem runOrderV2_nonmember (input : RunInput) (h1 : input.metafield ≠ Metafield.malformed)
    (h2 : input.cart.member = false) : runOrderV2 input = Except.ok EMPTY_ORDER := by
  unfold runOrderV2
  cases hm : input.metafield with
  | malformed => exact absurd hm h1
  | missing => simp [parseConfigMetafield, h2]
  | wellFormed c => simp [parseConfigMetafield, h2]

theorem runShippingV1_nonmember (input : RunInput) (h1 : input.metafield ≠ Metafield.malformed)
    (h2 : input.cart.member = false) : runShippingV1 input = Except.ok EMPTY_SHIPPING := by
  unfold runShippingV1
  cases hm : input.metafield with
  | malformed => exact absurd hm h1
  | missing => simp [parseConfigMetafield, h2]
  | wellFormed c => simp [parseConfigMetafield, h2]

theorem runShippingV2_nonmember (input : RunInput) (h1 : input.metafield ≠ Metafield.malformed)
    (h2 : input.cart.member = false) : runShippingV2 input = Except.ok EMPTY_SHIPPING := by
  unfold runShippingV2
  cases hm : input.metafield with
  | malformed => exact absurd hm h1
  | missing => simp [parseConfigMetafield, h2]
  | wellFormed c => simp [parseConfigMetafield, h2]

theorem runShippingV1_noTargets (input : RunInput) (h1 : input.metafield ≠ Metafield.malformed)
    (h2 : shippingTargets input.cart = []) : runShippingV1 input = Except.ok EMPTY_SHIPPING := by
  unfold runShippingV1
  cases hm : input.metafield with
  | malformed => exact absurd hm h1
  | missing =>
      simp only [parseConfigMetafield]
      split
      · rfl
      · rw [h2]
        simp
  | wellFormed c =>
      simp only [parseConfigMetafield]
      split
      · rfl
      · rw [h2]
        simp

theorem runShippingV2_noTargets (input : RunInput) (h1 : input.metafield ≠ Metafield.malformed)
    (h2 : shippingTargets input.cart = []) : runShippingV2 input = Except.ok EMPTY_SHIPPING := by
  unfold runShippingV2
  cases hm : input.metafield with
  | malformed => exact absurd hm h1
  | missing =>
      simp only [parseConfigMetafield]
      split
      · rfl
      · split
        · rfl
        · rw [h2]
          simp
  | wellFormed c =>
      simp only [parseConfigMetafield]
      split
      · rfl
      · split
        · rfl
        · rw [h2]
          simp

theorem runCartTransform_nonmember (env : Env) (input : CTInput)
    (h : ctIsMember env input = false) : runCartTransform env input = ctOriginal input.lines := by
  unfold runCartTransform
  cases hc : input.customer with
  | none => rfl
  | some cust =>
      dsimp only
      by_cases hid : truthyS cust.id = true
      · rw [hid]
        simp only [Bool.not_true, Bool.false_eq_true, if_false]
        rw [if_pos (by simp [h])]
      · simp only [Bool.not_eq_true] at hid
        rw [hid]
        simp

theorem runOrderV2_percentNonpos (input : RunInput) (cfg : Configuration) (q : Dec)
    (hparse : parseConfigMetafield input.metafield = Except.ok cfg)
    (hq : sanitizedPercentV2 cfg = JNum.num q) (hle : q.val ≤ 0) :
    runOrderV2 input = Except.ok EMPTY_ORDER := by
  have hble : Dec.ble q (Dec.ofInt 0) = true := by
    rw [Dec.ble_iff, Dec.val_ofInt]
    push_cast
    exact hle
  unfold runOrderV2
  rw [hparse]
  by_cases hmem : input.cart.member = true
  · simp [hq, hmem, JNum.jle, JNum.lit, hble]
  · simp only [Bool.not_eq_true] at hmem
    simp [hmem]

theorem runOrderV2_noQualifying (input : RunInput) (cfg : Configuration)
    (hparse : parseConfigMetafield input.metafield = Except.ok cfg)
    (h : v2Targets (sanitizedPercentV2 cfg) input.cart.lines = []) :
    ∃ r, runOrderV2 input = Except.ok r ∧ r.discounts = [] := by
  obtain ⟨q, hq⟩ := sanitizedPercentV2_isNum cfg
  by_cases hmem : input.cart.member = true
  · rcases le_or_lt q.val 0 with hle | hlt
    · exact ⟨EMPTY_ORDER, runOrderV2_percentNonpos input cfg q hparse hq hle, rfl⟩
    · refine ⟨_, runOrderV2_char input cfg q hparse hmem hq hlt, ?_⟩
      rw [hq] at h
      simp [h]
  · simp only [Bool.not_eq_true] at hmem
    exact ⟨EMPTY_ORDER, runOrderV2_nonmember input
      (fun hmal => by rw [hmal] at hparse; cases hparse) hmem, rfl⟩

theorem runShippingV1_disabled (input : RunInput) (cfg : Configuration)
    (hparse : parseConfigMetafield input.metafield = Except.ok cfg)
    (hen : truthyV (valOr cfg.enabled (JVal.bool true)) = false) :
    runShippingV1 input = Except.ok EMPTY_SHIPPING := by
  unfold runShippingV1
  rw [hparse]
  simp [hen]

theorem runShippingV2_disabled (input : RunInput) (cfg : Configuration)
    (hparse : parseConfigMetafield input.metafield = Except.ok cfg)
    (hen : shipEnabled cfg = false) :
    runShippingV2 input = Except.ok EMPTY_SHIPPING := by
  unfold runShippingV2
  rw [hparse]
  by_cases hmem : input.cart.member = true
  · simp [hmem, hen]
  · simp only [Bool.not_eq_true] at hmem
    simp [hmem]

theorem runOrderV2_targets_nonempty (input : RunInput) (r : FunctionRunResult)
    (hr : runOrderV2 input = Except.ok r) :
    ∀ d ∈ r.discounts, d.targets ≠ [] := by
  have hr2 := hr
  intro d hd
  cases hm : input.metafield with
  | malformed =>
      unfold runOrderV2 at hr2
      rw [hm] at hr2
      cases hr2
  | missing =>
      have hp : parseConfigMetafield input.metafield = Except.ok {} := by rw [hm]; rfl
      obtain ⟨q, hq⟩ := sanitizedPercentV2_isNum {}
      by_cases hmem : input.cart.member = true
      · rcases le_or_lt q.val 0 with hle | hlt
        · rw [runOrderV2_percentNonpos input {} q hp hq hle] at hr2
          cases hr2
          simp [EMPTY_ORDER] at hd
        · rw [runOrderV2_char input {} q hp hmem hq hlt] at hr2
          cases hr2
          by_cases hlen : (v2Targets (JNum.num q) input.cart.lines).length > 0
          · rw [if_pos hlen] at hd
            simp only [List.mem_singleton] at hd
            subst hd
            exact List.length_pos.mp hlen
          · rw [if_neg hlen] at hd
            simp at hd
      · simp only [Bool.not_eq_true] at hmem
        rw [runOrderV2_nonmember input (by rw [hm]; simp) hmem] at hr2
        cases hr2
        simp [EMPTY_ORDER] at hd
  | wellFormed cfg =>
      have hp : parseConfigMetafield input.metafield = Except.ok cfg := by rw [hm]; rfl
      obtain ⟨q, hq⟩ := sanitizedPercentV2_isNum cfg
      by_cases hmem : input.cart.member = true
      · rcases le_or_lt q.val 0 with hle | hlt
        · rw [runOrderV2_percentNonpos input cfg q hp hq hle] at hr2
          cases hr2
          simp [EMPTY_ORDER] at hd
        · rw [runOrderV2_char input cfg q hp hmem hq hlt] at hr2
          cases hr2
          by_cases hlen : (v2Targets (JNum.num q) input.cart.lines).length > 0
          · rw [if_pos hlen] at hd
            simp only [List.mem_singleton] at hd
            subst hd
            exact List.length_pos.mp hlen
          · rw [if_neg hlen] at hd
            simp at hd
      · simp only [Bool.not_eq_true] at hmem
        rw [runOrderV2_nonmember input (by rw [hm]; simp) hmem] at hr2
        cases hr2
        simp [EMPTY_ORDER] at hd

theorem runShippingV1_targets_nonempty (input : RunInput) (r : FunctionRunResult)
    (hr : runShippingV1 input = Except.ok r) : ∀ d ∈ r.discounts, d.targets ≠ [] := by
  intro d hd
  cases hparse : parseConfigMetafield input.metafield with
  | error e =>
      unfold runShippingV1 at hr
      rw [hparse] at hr
      cases hr
  | ok cfg =>
      have hmal : input.metafield ≠ Metafield.malformed := by
        intro hm
        rw [hm] at hparse
        cases hparse
      by_cases hmem : input.cart.member = true
      · by_cases hen : truthyV (valOr cfg.enabled (JVal.bool true)) = true
        · by_cases hne : shippingTargets input.cart = []
          · rw [runShippingV1_noTargets input hmal hne] at hr
            cases hr
            simp [EMPTY_SHIPPING] at hd
          · rw [runShippingV1_char input cfg hparse hmem hen hne] at hr
            cases hr
            simp only [List.mem_singleton] at hd
            subst hd
            exact hne
        · simp only [Bool.not_eq_true] at hen
          rw [runShippingV1_disabled input cfg hparse hen] at hr
          cases hr
          simp [EMPTY_SHIPPING] at hd
      · simp only [Bool.not_eq_true] at hmem
        rw [runShippingV1_nonmember input hmal hmem] at hr
        cases hr
        simp [EMPTY_SHIPPING] at hd

theorem runShippingV2_targets_nonempty (input : RunInput) (r : FunctionRunResult)
    (hr : runShippingV2 input = Except.ok r) : ∀ d ∈ r.discounts, d.targets ≠ [] := by
  intro d hd
  cases hparse : parseConfigMetafield input.metafield with
  | error e =>
      unfold runShippingV2 at hr
      rw [hparse] at hr
      cases hr
  | ok cfg =>
      have hmal : input.metafield ≠ Metafield.malformed := by
        intro hm
        rw [hm] at hparse
        cases hparse
      by_cases hmem : input.cart.member = true
      · by_cases hen : shipEnabled cfg = true
        · by_cases hne : shippingTargets input.cart = []
          · rw [runShippingV2_noTargets input hmal hne] at hr
            cases hr
            simp [EMPTY_SHIPPING] at hd
          · rw [runShippingV2_char input cfg hparse hmem hen hne] at hr
            cases hr
            simp only [List.mem_singleton] at hd
            subst hd
            exact hne
        · simp only [Bool.not_eq_true] at hen
          rw [runShippingV2_disabled input cfg hparse hen] at hr
          cases hr
          simp [EMPTY_SHIPPING] at hd
      · simp only [Bool.not_eq_true] at hmem
        rw [runShippingV2_nonmember input hmal hmem] at hr
        cases hr
        simp [EMPTY_SHIPPING] at hd

theorem runCartTransform_ids (env : Env) (input : CTInput) :
    (runCartTransform env input).lines.map (fun l => l.id) =
      input.lines.map (fun l => l.id) := by
  unfold runCartTransform
  cases input.customer with
  | none => simp [ctOriginal, List.map_map, Function.comp]
  | some cust =>
      dsimp only
      by_cases hid : truthyS cust.id = true
      · rw [hid]
        simp only [Bool.not_true, Bool.false_eq_true, if_false]
        by_cases hg : (!(ctIsMember env input) || !(getDiscountSettings env).isEnabled
            || jle (getDiscountSettings env).discountPercent (JNum.lit 0)) = true
        · rw [if_pos hg]
          simp [ctOriginal, List.map_map, Function.comp]
        · rw [if_neg (by simpa using hg)]
          simp [ctDiscountLine, List.map_map, Function.comp]
      · simp only [Bool.not_eq_true] at hid
        rw [hid]
        simp [ctOriginal, List.map_map, Function.comp]

theorem runCartTransform_nonDiscount (env : Env) (input : CTInput)
    (h : ctNonDiscountPath env input) :
    runCartTransform env input = ctOriginal input.lines := by
  unfold runCartTransform
  cases hc : input.customer with
  | none => rfl
  | some cust =>
      unfold ctNonDiscountPath at h
      rw [hc] at h
      dsimp only at h ⊢
      by_cases hid : truthyS cust.id = true
      · rw [hid]
        simp only [Bool.not_true, Bool.false_eq_true, if_false]
        rcases h with h | h | h | h
        · rw [hid] at h
          cases h
        · rw [if_pos (by simp [h])]
        · rw [if_pos (by simp [h])]
        · rw [if_pos (by simp [h])]
      · simp only [Bool.not_eq_true] at hid
        rw [hid]
        simp

theorem runOrderV0_char (input : RunInput) (cfg : Configuration) (p q : Dec)
    (hparse : parseConfigMetafield input.metafield = Except.ok cfg)
    (hcfg : cfg.percentage = some (JVal.num p))
    (hmem : input.cart.member = true)
    (hq : jmax (JNum.lit 0) (jmin (JNum.lit 100) (JNum.num p)) = JNum.num q)
    (hqpos : 0 < q.val) :
    runOrderV0 input = Except.ok
      { discountApplicationStrategy := some DiscountApplicationStrategy.Maximum,
        discounts := input.cart.lines.filterMap (fun line =>
          if !(truthyN (v0Base line)) || jle (v0Base line) (JNum.lit 0) then none
          else some
            { message := "PFC Member Discount",
              targets := [Target.productVariant line.merchandiseId line.quantity],
              value := DiscountValue.percentage (JNum.num q) }) } := by
  have hblt : Dec.blt (Dec.ofInt 0) q = true := by
    rw [Dec.blt_iff, Dec.val_ofInt]
    push_cast
    exact hqpos
  unfold runOrderV0
  rw [hparse]
  simp only [hcfg, valOr, jsToNumberV]
  rw [hq]
  simp only [hmem, Bool.not_true, Bool.false_eq_true, if_false, JNum.jlt, JNum.lit, hblt,
    if_true]

/-! ## Claim theorems -/

/-- C1: the specification requires a malformed configuration metafield to be
treated as the empty object (all defaults, no exception), but `JSON.parse`
throws and the `SyntaxError` propagates out of `run` in every pricing
evaluator generation — order discount (all three generations) and shipping
discount (both generations). -/
theorem C1_malformed_config_propagates :
    runOrderV0 inputMalformed = Except.error JsError.syntaxError ∧
    runOrderV1 inputMalformed = Except.error JsError.syntaxError ∧
    runOrderV2 inputMalformed = Except.error JsError.syntaxError ∧
    runShippingV1 inputMalformed = Except.error JsError.syntaxError ∧
    runShippingV2 inputMalformed = Except.error JsError.syntaxError := by
  exact ⟨rfl, rfl, rfl, rfl, rfl⟩

/-- C3: with the payload `percentage "invalid"` on a member cart (unit
20.00, compare-at 25.00 — the repository's own test input, which expects an
empty list), the first generation of the order-discount run lets NaN
through its `Math.max/Math.min` clamp and the `percent <= 0` gate and
emits a discount whose fixed amount is the string `NaN`; the second
generation maps NaN to 0 and returns the empty result.  Clamping of
out-of-range numeric percentages works in both generations: 150 behaves
as 100, and -10 yields the empty result. -/
theorem C3_invalid_percentage_generations :
    (runOrderV1 inputInvalidPercent).map (fun r => r.discounts.map (fun d => d.value))
      = Except.ok [DiscountValue.fixedAmount "NaN"] ∧
    runOrderV2 inputInvalidPercent = Except.ok EMPTY_ORDER ∧
    (runOrderV1 inputPercent150).map (fun r => r.discounts.map (fun d => d.value))
      = Except.ok [DiscountValue.fixedAmount "25.00"] ∧
    (runOrderV2 inputPercent150).map (fun r => r.discounts.map (fun d => d.value))
      = Except.ok [DiscountValue.fixedAmount "25.00"] ∧
    runOrderV1 inputPercentNeg = Except.ok EMPTY_ORDER ∧
    runOrderV2 inputPercentNeg = Except.ok EMPTY_ORDER := by
  refine ⟨by decide, by decide, by decide, by decide, by decide, by decide⟩

/-- C5 (counterexample): the claim quantifies over every configuration
payload, but for a malformed payload every metafield-configured evaluator
raises the `JSON.parse` exception even for a non-member buyer, instead of
returning an empty discount list. -/
theorem C5_counterexample_nonmember_malformed :
    runOrderV0 inputNonMemberMalformed = Except.error JsError.syntaxError ∧
    runOrderV1 inputNonMemberMalformed = Except.error JsError.syntaxError ∧
    runOrderV2 inputNonMemberMalformed = Except.error JsError.syntaxError ∧
    runShippingV1 inputNonMemberMalformed = Except.error JsError.syntaxError ∧
    runShippingV2 inputNonMemberMalformed = Except.error JsError.syntaxError := by
  exact ⟨rfl, rfl, rfl, rfl, rfl⟩

/-- C5 (amended): for every cart and every configuration payload that is
absent or well-formed JSON, a non-member buyer receives the empty discount
list from every evaluator generation, and the cart transform returns the
lines with their original costs for every non-member (it parses no JSON
payload, so no restriction is needed there). -/
theorem C5_nonmember_always_empty :
    (∀ input : RunInput, input.metafield ≠ Metafield.malformed →
        input.cart.member = false →
        runOrderV0 input = Except.ok EMPTY_ORDER ∧
        runOrderV1 input = Except.ok EMPTY_ORDER ∧
        runOrderV2 input = Except.ok EMPTY_ORDER ∧
        runShippingV1 input = Except.ok EMPTY_SHIPPING ∧
        runShippingV2 input = Except.ok EMPTY_SHIPPING) ∧
    (∀ (env : Env) (input : CTInput), ctIsMember env input = false →
        runCartTransform env input = ctOriginal input.lines) := by
  constructor
  · intro input h1 h2
    exact ⟨runOrderV0_nonmember input h1 h2, runOrderV1_nonmember input h1 h2,
      runOrderV2_nonmember input h1 h2, runShippingV1_nonmember input h1 h2,
      runShippingV2_nonmember input h1 h2⟩
  · intro env input h
    exact runCartTransform_nonmember env input h

/-- C5 (witness): the amended statement applied to the concrete non-member
inputs. -/
theorem C5_nonmember_witness :
    runOrderV2 inputNonMemberMissing = Except.ok EMPTY_ORDER ∧
    runCartTransform {} ctInputNonMember = ctOriginal ctInputNonMember.lines := by
  constructor
  · exact (C5_nonmember_always_empty.1 inputNonMemberMissing (by decide) rfl).2.2.1
  · exact C5_nonmember_always_empty.2 {} ctInputNonMember (by decide)

/-- C2 (counterexample): the cart-transform surface does not apply the
best-price-wins rule — on a member line charged 50.00 with compare-at
100.00 at the default 10 percent, it sets the subtotal to 90.00, raising
the charged price. -/
theorem C2_counterexample_cart_transform_raises_price :
    (runCartTransform {} ctInputRaise).lines.map (fun l => l.subtotalAmount) = ["90.00"] ∧
    ctInputRaise.lines.map (fun l => l.subtotalAmount) = ["50.00"] ∧
    jsParseFloat "50.00" = JNum.num ⟨5000, 2⟩ ∧
    jsParseFloat "90.00" = JNum.num ⟨9000, 2⟩ ∧
    (⟨5000, 2⟩ : Dec).val < (⟨9000, 2⟩ : Dec).val := by
  refine ⟨by decide, by decide, by decide, by decide, ?_⟩
  norm_num [Dec.val]

/-- C2 (amended): on the order-discount evaluators the strict
best-price-wins rule holds — for a line with a usable compare-at base `c`
and numeric unit amount `r`, and a configured percentage `p` in `(0,100]`,
the shared per-line pricing emits a discount exactly when
`r - c*(1 - p/100) > 0`, and on a one-line member cart both run
generations return a non-empty discount list exactly under the same
condition.  (The cart-transform preview path does not follow this rule;
see the counterexample.) -/
theorem C2_best_price_wins_order_evaluators :
    ∀ (p r c : Dec) (line : CartLine),
      0 < p.val → p.val ≤ 100 →
      jsNumber line.cost.amount = JNum.num r →
      usableCompareAt (lineCompareAt line) = some c →
      ((linePerUnitDiscount (JNum.num p) line).isSome = true
          ↔ 0 < r.val - c.val * (1 - p.val / 100))
      ∧ (∀ res, runOrderV1
            { metafield := Metafield.wellFormed { percentage := some (JVal.num p) },
              cart := { member := true, lines := [line], deliveryGroups := [] } }
            = Except.ok res →
          (res.discounts ≠ [] ↔ 0 < r.val - c.val * (1 - p.val / 100)))
      ∧ (∀ res, runOrderV2
            { metafield := Metafield.wellFormed { percentage := some (JVal.num p) },
              cart := { member := true, lines := [line], deliveryGroups := [] } }
            = Except.ok res →
          (res.discounts ≠ [] ↔ 0 < r.val - c.val * (1 - p.val / 100))) := by
  intro p r c line hp0 hp100 hr hc
  obtain ⟨q, hq, hqv⟩ := clamp_char p (le_of_lt hp0) hp100
  have hqpos : 0 < q.val := by rw [hqv]; exact hp0
  have hiff := linePerUnitDiscount_isSome_iff q line r c hr hc
  rw [hqv] at hiff
  refine ⟨linePerUnitDiscount_isSome_iff p line r c hr hc, ?_, ?_⟩
  · intro res hres
    rw [runOrderV1_char
      { metafield := Metafield.wellFormed { percentage := some (JVal.num p) },
        cart := { member := true, lines := [line], deliveryGroups := [] } }
      { percentage := some (JVal.num p) } p q rfl rfl rfl hq hqpos] at hres
    cases hres
    cases hopt : linePerUnitDiscount (JNum.num q) line with
    | none =>
        rw [← hiff]
        simp [List.filterMap_cons, hopt]
    | some d =>
        rw [← hiff]
        simp [List.filterMap_cons, hopt]
  · intro res hres
    obtain ⟨q2, hq2, hq2v⟩ := sanitizedPercentV2_num { percentage := some (JVal.num p) } p
      rfl (le_of_lt hp0) hp100
    have hq2pos : 0 < q2.val := by rw [hq2v]; exact hp0
    have hiff2 := linePerUnitDiscount_isSome_iff q2 line r c hr hc
    rw [hq2v] at hiff2
    rw [runOrderV2_char
      { metafield := Metafield.wellFormed { percentage := some (JVal.num p) },
        cart := { member := true, lines := [line], deliveryGroups := [] } }
      { percentage := some (JVal.num p) } q2 rfl rfl hq2 hq2pos] at hres
    cases hres
    cases hopt : linePerUnitDiscount (JNum.num q2) line with
    | none =>
        rw [← hiff2]
        simp [v2Targets, List.filterMap_cons, hopt]
    | some d =>
        rw [← hiff2]
        simp [v2Targets, List.filterMap_cons, hopt]

/-- C2 (witness): the amended statement applied to the moisturizer line at
10 percent, where the discount applies. -/
theorem C2_best_price_witness :
    (linePerUnitDiscount (JNum.num (Dec.ofInt 10)) lineMoisturizer).isSome = true
      ↔ 0 < (⟨3400, 2⟩ : Dec).val - (⟨3400, 2⟩ : Dec).val * (1 - (Dec.ofInt 10).val / 100) := by
  exact (C2_best_price_wins_order_evaluators (Dec.ofInt 10) ⟨3400, 2⟩ ⟨3400, 2⟩
    lineMoisturizer (by norm_num [Dec.val, Dec.ofInt]) (by norm_num [Dec.val, Dec.ofInt])
    (by decide) (by decide)).1

/-- C4: combined-mode aggregation.  For every member cart whose amount
strings are numeric and a configured percentage in `(0,100]` with at least
one qualifying line, the second-generation run emits exactly one discount
record whose targets are precisely the qualifying lines in cart order and
whose fixed amount is the `toFixed(2)` formatting of a total whose value is
the sum of per-unit discount times quantity over the qualifying lines;
non-qualifying lines contribute nothing and are absent from the targets.
In particular the three-line example at percent 10 totals 4.60 with the
8.00/10.00 line excluded, and the quantity-2 line at 34.00/34.00 yields
6.80. -/
theorem C4_combined_mode_aggregation :
    (∀ (input : RunInput) (cfg : Configuration) (p : Dec),
        input.metafield = Metafield.wellFormed cfg →
        cfg.percentage = some (JVal.num p) →
        0 < p.val → p.val ≤ 100 →
        input.cart.member = true →
        (∀ l ∈ input.cart.lines, ∃ r, jsNumber l.cost.amount = JNum.num r) →
        v2Targets (sanitizedPercentV2 cfg) input.cart.lines ≠ [] →
        ∃ (q T : Dec),
          sanitizedPercentV2 cfg = JNum.num q ∧ q.val = p.val ∧
          T.val = (input.cart.lines.map (lineContribution (sanitizedPercentV2 cfg))).sum ∧
          runOrderV2 input = Except.ok
            { discountApplicationStrategy := some DiscountApplicationStrategy.First,
              discounts :=
                [{ message := msgOr cfg.productDiscountMessage "PFC Member Discount",
                   targets := v2Targets (sanitizedPercentV2 cfg) input.cart.lines,
                   value := DiscountValue.fixedAmount (jsToFixed2 (JNum.num T)) }] })
    ∧ runOrderV2 inputThreeLines = Except.ok
        { discountApplicationStrategy := some DiscountApplicationStrategy.First,
          discounts :=
            [{ message := "PFC Member Discount",
               targets := [Target.productVariant "gid-moisturizer" (Dec.ofInt 1),
                           Target.productVariant "gid-vitaminc" (Dec.ofInt 1)],
               value := DiscountValue.fixedAmount "4.60" }] }
    ∧ (runOrderV2 inputQty2).map (fun r => r.discounts.map (fun d => d.value))
        = Except.ok [DiscountValue.fixedAmount "6.80"] := by
  refine ⟨?_, by decide, by decide⟩
  intro input cfg p hm hcfg hp0 hp100 hmem hgood hne
  obtain ⟨q, hq, hqv⟩ := sanitizedPercentV2_num cfg p hcfg (le_of_lt hp0) hp100
  have hqpos : 0 < q.val := by rw [hqv]; exact hp0
  have hparse : parseConfigMetafield input.metafield = Except.ok cfg := by rw [hm]; rfl
  obtain ⟨T, hT, hTval⟩ :=
    foldV2_total q input.cart.lines [] (Dec.ofInt 0) hgood
  refine ⟨q, T, hq, hqv, ?_, ?_⟩
  · rw [hq, hTval, Dec.val_ofInt]
    push_cast
    ring
  · rw [runOrderV2_char input cfg q hparse hmem hq hqpos]
    rw [hq] at hne
    have hlen : (v2Targets (JNum.num q) input.cart.lines).length > 0 :=
      List.length_pos.mpr hne
    rw [if_pos hlen, hq]
    have hT2 : (input.cart.lines.foldl (stepV2 (JNum.num q)) ([], JNum.lit 0)).2
        = JNum.num T := hT
    rw [hT2]

/-- C4 (witness): the aggregation statement applied to the three-line
member cart at percent 10. -/
theorem C4_combined_mode_witness :
    ∃ (q T : Dec),
      sanitizedPercentV2 cfg10 = JNum.num q ∧ q.val = (Dec.ofInt 10).val ∧
      T.val = (inputThreeLines.cart.lines.map
        (lineContribution (sanitizedPercentV2 cfg10))).sum ∧
      runOrderV2 inputThreeLines = Except.ok
        { discountApplicationStrategy := some DiscountApplicationStrategy.First,
          discounts :=
            [{ message := msgOr cfg10.productDiscountMessage "PFC Member Discount",
               targets := v2Targets (sanitizedPercentV2 cfg10) inputThreeLines.cart.lines,
               value := DiscountValue.fixedAmount (jsToFixed2 (JNum.num T)) }] } := by
  exact C4_combined_mode_aggregation.1 inputThreeLines cfg10 (Dec.ofInt 10) rfl rfl
    (by norm_num [Dec.val, Dec.ofInt]) (by norm_num [Dec.val, Dec.ofInt]) rfl
    (by
      intro l hl
      simp only [inputThreeLines, lineMoisturizer, lineLipbalm, lineVitaminc,
        List.mem_cons, List.mem_singleton] at hl
      rcases hl with rfl | rfl | rfl | h
      · exact ⟨⟨3400, 2⟩, by decide⟩
      · exact ⟨⟨800, 2⟩, by decide⟩
      · exact ⟨⟨3900, 2⟩, by decide⟩
      · cases h)
    (by decide)

/-- C6 (counterexample): with no configuration message, an eligible member
input with one delivery option gets the literal message
`Free Shipping for PFC Members` from both shipping generations, not the
literal `Free Shipping for Members` the claim states. -/
theorem C6_counterexample_default_message :
    (runShippingV1 inputShipping).map (fun r => r.discounts.map (fun d => d.message))
      = Except.ok ["Free Shipping for PFC Members"] ∧
    (runShippingV2 inputShipping).map (fun r => r.discounts.map (fun d => d.message))
      = Except.ok ["Free Shipping for PFC Members"] ∧
    "Free Shipping for PFC Members" ≠ "Free Shipping for Members" := by
  refine ⟨by decide, by decide, by decide⟩

/-- C6 (amended): the shipping contract with the actual default literal.
Eligibility is the member signal conjoined with the enabled flag, which
defaults to true when unset; an ineligible or disabled input yields the
empty list; when eligible and at least one delivery option with a truthy
handle exists, exactly one record is emitted with a 100% percentage value,
one target per usable option across all delivery groups in order, and the
message is the configured one when provided (configurable-message
generation) or else — and always, in the `run.ts` generation — the literal
`Free Shipping for PFC Members`. -/
theorem C6_shipping_contract :
    (∀ input : RunInput, input.metafield ≠ Metafield.malformed →
        input.cart.member = false →
        runShippingV1 input = Except.ok EMPTY_SHIPPING ∧
        runShippingV2 input = Except.ok EMPTY_SHIPPING)
    ∧ (∀ (input : RunInput) (cfg : Configuration),
        parseConfigMetafield input.metafield = Except.ok cfg →
        cfg.enabled = some (JVal.bool false) →
        runShippingV1 input = Except.ok EMPTY_SHIPPING ∧
        runShippingV2 input = Except.ok EMPTY_SHIPPING)
    ∧ (∀ (input : RunInput) (cfg : Configuration),
        parseConfigMetafield input.metafield = Except.ok cfg →
        input.cart.member = true → shipEnabled cfg = true →
        shippingTargets input.cart ≠ [] →
        runShippingV2 input = Except.ok
          { discountApplicationStrategy := none,
            discounts :=
              [{ message := msgOr cfg.shippingDiscountMessage "Free Shipping for PFC Members",
                 targets := shippingTargets input.cart,
                 value := DiscountValue.percentage (JNum.lit 100) }] })
    ∧ (∀ (input : RunInput) (cfg : Configuration),
        parseConfigMetafield input.metafield = Except.ok cfg →
        input.cart.member = true →
        truthyV (valOr cfg.enabled (JVal.bool true)) = true →
        shippingTargets input.cart ≠ [] →
        runShippingV1 input = Except.ok
          { discountApplicationStrategy := none,
            discounts :=
              [{ message := "Free Shipping for PFC Members",
                 targets := shippingTargets input.cart,
                 value := DiscountValue.percentage (JNum.lit 100) }] })
    ∧ (∀ cart : Cart, shippingTargets cart =
        (cart.deliveryGroups.map (fun g => g.deliveryOptions.filterMap shipOptTarget)).flatten) := by
  refine ⟨?_, ?_, ?_, ?_, shippingTargets_char⟩
  · intro input h1 h2
    exact ⟨runShippingV1_nonmember input h1 h2, runShippingV2_nonmember input h1 h2⟩
  · intro input cfg hparse hen
    constructor
    · refine runShippingV1_disabled input cfg hparse ?_
      rw [hen]
      rfl
    · refine runShippingV2_disabled input cfg hparse ?_
      unfold shipEnabled
      rw [hen]
      rfl
  · intro input cfg hparse hmem hen hne
    exact runShippingV2_char input cfg hparse hmem hen hne
  · intro input cfg hparse hmem hen hne
    exact runShippingV1_char input cfg hparse hmem hen hne

/-- C6 (witness): the contract applied to the eligible one-option input
with no configuration (enabled defaults to true). -/
theorem C6_shipping_witness :
    runShippingV2 inputShipping = Except.ok
      { discountApplicationStrategy := none,
        discounts :=
          [{ message := msgOr ({} : Configuration).shippingDiscountMessage
               "Free Shipping for PFC Members",
             targets := shippingTargets inputShipping.cart,
             value := DiscountValue.percentage (JNum.lit 100) }] } := by
  exact C6_shipping_contract.2.2.1 inputShipping {} rfl rfl rfl (by decide)

/-- C7: empty result on no qualifying targets.  When zero cart lines
qualify, the combined-mode order evaluator returns an empty discount list
(never a record with zero amount); when zero delivery options have a
usable handle, both shipping generations return an empty discount list
even for an eligible buyer; and no evaluator ever emits a discount record
with an empty target list. -/
theorem C7_zero_qualifying_empty :
    (∀ (input : RunInput) (cfg : Configuration),
        parseConfigMetafield input.metafield = Except.ok cfg →
        v2Targets (sanitizedPercentV2 cfg) input.cart.lines = [] →
        ∃ r, runOrderV2 input = Except.ok r ∧ r.discounts = [])
    ∧ (∀ input : RunInput, input.metafield ≠ Metafield.malformed →
        shippingTargets input.cart = [] →
        runShippingV1 input = Except.ok EMPTY_SHIPPING ∧
        runShippingV2 input = Except.ok EMPTY_SHIPPING)
    ∧ (∀ (input : RunInput) (r : FunctionRunResult), runOrderV2 input = Except.ok r →
        ∀ d ∈ r.discounts, d.targets ≠ [])
    ∧ (∀ (input : RunInput) (r : FunctionRunResult), runShippingV1 input = Except.ok r →
        ∀ d ∈ r.discounts, d.targets ≠ [])
    ∧ (∀ (input : RunInput) (r : FunctionRunResult), runShippingV2 input = Except.ok r →
        ∀ d ∈ r.discounts, d.targets ≠ []) := by
  refine ⟨runOrderV2_noQualifying, ?_, runOrderV2_targets_nonempty,
    runShippingV1_targets_nonempty, runShippingV2_targets_nonempty⟩
  intro input h1 h2
  exact ⟨runShippingV1_noTargets input h1 h2, runShippingV2_noTargets input h1 h2⟩

/-- C7 (witness): an eligible member cart whose single line does not
qualify yields an empty discount list, and an eligible member with no
delivery groups yields an empty shipping discount list. -/
theorem C7_zero_qualifying_witness :
    (∃ r, runOrderV2 inputLipbalmOnly = Except.ok r ∧ r.discounts = []) ∧
    runShippingV2 inputShippingNoGroups = Except.ok EMPTY_SHIPPING := by
  constructor
  · exact C7_zero_qualifying_empty.1 inputLipbalmOnly cfg10 rfl (by decide)
  · exact (C7_zero_qualifying_empty.2.1 inputShippingNoGroups (by decide) (by decide)).2

/-- C8 (counterexample): the per-line generation in
`pfc-member-order-discount/src/run.ts` does not emit percentage-type
values — on the quantity-2 member cart at percent 10 it emits one record
whose value is the fixed currency amount 3.40 (per unit, not quantity
scaled), and a fixed amount is never a percentage value. -/
theorem C8_counterexample_fixed_amount :
    (runOrderV1 inputQty2).map (fun r => r.discounts.map (fun d => d.value))
      = Except.ok [DiscountValue.fixedAmount "3.40"] ∧
    (∀ v : JNum, DiscountValue.fixedAmount "3.40" ≠ DiscountValue.percentage v) := by
  refine ⟨by decide, ?_⟩
  intro v h
  exact DiscountValue.noConfusion h

/-- C8 (amended): per-line output shapes by generation.  For a configured
percentage in `(0,100]` on a member cart, the earliest generation emits one
record per qualifying line (base price usable, with fallback to the unit
price) whose value is a percentage; the `run.ts` per-line generation emits
one record per qualifying line (strict compare-at pricing) whose value is
a per-unit fixed currency amount, not scaled by quantity. -/
theorem C8_per_line_mode_shapes :
    ∀ (input : RunInput) (cfg : Configuration) (p q : Dec),
      parseConfigMetafield input.metafield = Except.ok cfg →
      cfg.percentage = some (JVal.num p) →
      input.cart.member = true →
      jmax (JNum.lit 0) (jmin (JNum.lit 100) (JNum.num p)) = JNum.num q →
      0 < q.val →
      runOrderV0 input = Except.ok
        { discountApplicationStrategy := some DiscountApplicationStrategy.Maximum,
          discounts := input.cart.lines.filterMap (fun line =>
            if !(truthyN (v0Base line)) || jle (v0Base line) (JNum.lit 0) then none
            else some
              { message := "PFC Member Discount",
                targets := [Target.productVariant line.merchandiseId line.quantity],
                value := DiscountValue.percentage (JNum.num q) }) }
      ∧ runOrderV1 input = Except.ok
        { discountApplicationStrategy := some DiscountApplicationStrategy.Maximum,
          discounts := input.cart.lines.filterMap (fun line =>
            (linePerUnitDiscount (JNum.num q) line).map (fun d =>
              { message := "PFC Member Discount (" ++ jsNumToString (JNum.num q)
                  ++ "% off compare-at-price)",
                targets := [Target.productVariant line.merchandiseId line.quantity],
                value := DiscountValue.fixedAmount (jsToFixed2 d) })) } := by
  intro input cfg p q hparse hcfg hmem hq hqpos
  exact ⟨runOrderV0_char input cfg p q hparse hcfg hmem hq hqpos,
    runOrderV1_char input cfg p q hparse hcfg hmem hq hqpos⟩

/-- C8 (witness): the two per-line shapes at the single-moisturizer member
cart at percent 10. -/
theorem C8_per_line_witness :
    runOrderV0 inputMoisturizerOnly = Except.ok
      { discountApplicationStrategy := some DiscountApplicationStrategy.Maximum,
        discounts := inputMoisturizerOnly.cart.lines.filterMap (fun line =>
          if !(truthyN (v0Base line)) || jle (v0Base line) (JNum.lit 0) then none
          else some
            { message := "PFC Member Discount",
              targets := [Target.productVariant line.merchandiseId line.quantity],
              value := DiscountValue.percentage (JNum.num (Dec.ofInt 10)) }) } := by
  exact (C8_per_line_mode_shapes inputMoisturizerOnly cfg10 (Dec.ofInt 10) (Dec.ofInt 10)
    rfl rfl rfl (by decide) (by norm_num [Dec.val, Dec.ofInt])).1

/-- C9 (counterexample): `calculateMemberPrice` with the empty string
returns null through the falsy guard even though the empty string is
neither null nor undefined and does not parse to a number at all
(`parseFloat` yields NaN, which is not a number less than or equal to 0),
so the claimed exact characterization of the null cases is false. -/
theorem C9_counterexample_empty_string :
    calculateMemberPrice (some "") (Dec.ofInt 10) = none ∧
    jsParseFloat "" = JNum.nan := by
  exact ⟨by decide, by decide⟩

/-- C9 (amended): `calculateMemberPrice` returns null exactly when the
input is null/undefined, the empty string (falsy guard), or parses to a
number at most 0; a positive parse yields the two-decimal formatting of
`parsed * (1 - d/100)`; a non-empty non-numeric string yields the string
`NaN`; and no clamping is applied: a percent above 100 makes the member
price negative and a negative percent makes it exceed the compare-at
value. -/
theorem C9_calculateMemberPrice_contract :
    ∀ (s : String) (d : Dec),
      (calculateMemberPrice none d = none)
      ∧ (s = "" → calculateMemberPrice (some s) d = none)
      ∧ (∀ q : Dec, jsParseFloat s = JNum.num q → q.val ≤ 0 →
          calculateMemberPrice (some s) d = none)
      ∧ (∀ q : Dec, jsParseFloat s = JNum.num q → 0 < q.val →
          calculateMemberPrice (some s) d
            = some (jsToFixed2 (JNum.num (q.mul ((Dec.ofInt 1).sub d.div100))))
          ∧ (q.mul ((Dec.ofInt 1).sub d.div100)).val = q.val * (1 - d.val / 100))
      ∧ (jsParseFloat s = JNum.nan → s ≠ "" → calculateMemberPrice (some s) d = some "NaN")
      ∧ (∀ q : ℚ, 100 < d.val → 0 < q → q * (1 - d.val / 100) < 0)
      ∧ (∀ q : ℚ, d.val < 0 → 0 < q → q < q * (1 - d.val / 100)) := by
  intro s d
  refine ⟨rfl, ?_, ?_, ?_, ?_, ?_, ?_⟩
  · intro hs
    subst hs
    rfl
  · intro q hq hle
    have hs : s ≠ "" := by
      intro hnil
      subst hnil
      rw [show jsParseFloat "" = JNum.nan from rfl] at hq
      cases hq
    have hstr : truthyS s = true := (truthyS_iff s).mpr hs
    have hble : Dec.ble q (Dec.ofInt 0) = true := by
      rw [Dec.ble_iff, Dec.val_ofInt]
      push_cast
      exact hle
    unfold calculateMemberPrice
    dsimp only
    rw [hstr, hq]
    simp [JNum.jle, JNum.lit, hble]
  · intro q hq hlt
    have hs : s ≠ "" := by
      intro hnil
      subst hnil
      rw [show jsParseFloat "" = JNum.nan from rfl] at hq
      cases hq
    have hstr : truthyS s = true := (truthyS_iff s).mpr hs
    have hble : Dec.ble q (Dec.ofInt 0) = false := by
      rw [Dec.ble_eq_false_iff, Dec.val_ofInt]
      push_cast
      exact hlt
    constructor
    · unfold calculateMemberPrice
      dsimp only
      rw [hstr, hq]
      simp [JNum.jle, JNum.lit, hble, JNum.jmul, JNum.jsub, JNum.jdiv100]
    · rw [Dec.val_mul, Dec.val_sub, Dec.val_div100, Dec.val_ofInt]
      push_cast
      ring
  · intro hq hs
    have hstr : truthyS s = true := (truthyS_iff s).mpr hs
    unfold calculateMemberPrice
    dsimp only
    rw [hstr, hq]
    simp [JNum.jle, JNum.lit, JNum.jmul, JNum.jsub, JNum.jdiv100, jsToFixed2]
  · intro q h100 hqpos
    have hneg : (1 : ℚ) - d.val / 100 < 0 := by
      rw [sub_neg]
      rw [lt_div_iff (by norm_num : (0 : ℚ) < 100)]
      linarith
    exact mul_neg_of_pos_of_neg hqpos hneg
  · intro q hd hqpos
    have h1 : (1 : ℚ) < 1 - d.val / 100 := by
      have : d.val / 100 < 0 := div_neg_of_neg_of_pos hd (by norm_num)
      linarith
    exact (lt_mul_iff_one_lt_right hqpos).mpr h1

/-- C9 (witness): the contract applied to the empty string at percent 5
and to the parseable input 10.99 at percent 10. -/
theorem C9_calculateMemberPrice_witness :
    calculateMemberPrice (some "") (Dec.ofInt 5) = none ∧
    calculateMemberPrice (some "10.99") (Dec.ofInt 10)
      = some (jsToFixed2 (JNum.num (Dec.mul ⟨1099, 2⟩
          ((Dec.ofInt 1).sub (Dec.ofInt 10).div100)))) := by
  constructor
  · exact (C9_calculateMemberPrice_contract "" (Dec.ofInt 5)).2.1 rfl
  · exact ((C9_calculateMemberPrice_contract "10.99" (Dec.ofInt 10)).2.2.2.1 ⟨1099, 2⟩
      (by decide) (by norm_num [Dec.val])).1

/-- C10: the cart transform returns exactly one output line per input line,
in order and with the same id, on every path; and on every non-discount
path — buyer not logged in (no customer or falsy id), not a member,
discounting disabled, or non-positive percent — each line's subtotal
amount is returned unchanged. -/
theorem C10_cart_transform_frame :
    ∀ (env : Env) (input : CTInput),
      (runCartTransform env input).lines.length = input.lines.length
      ∧ (runCartTransform env input).lines.map (fun l => l.id)
          = input.lines.map (fun l => l.id)
      ∧ (ctNonDiscountPath env input →
          (runCartTransform env input).lines.map (fun l => l.subtotalAmount)
            = input.lines.map (fun l => l.subtotalAmount)) := by
  intro env input
  have hids := runCartTransform_ids env input
  refine ⟨?_, hids, fun h => ?_⟩
  · have := congrArg List.length hids
    simpa using this
  · rw [runCartTransform_nonDiscount env input h]
    simp [ctOriginal, List.map_map, Function.comp]

/-- C10 (witness): the frame statement applied to a logged-in non-member
input. -/
theorem C10_cart_transform_witness :
    (runCartTransform {} ctInputNonMember).lines.map (fun l => l.subtotalAmount)
      = ctInputNonMember.lines.map (fun l => l.subtotalAmount) := by
  exact (C10_cart_transform_frame {} ctInputNonMember).2.2 (Or.inr (Or.inl (by decide)))
